import Mathlib

/-!
# Core posture link: receiver decision loop and sender sampling loop

A shallow embedding of

* `Core_Posture/Receiver_Code_S3/esp32-s3-box-3.c`: the ESP-NOW receive callback
  `on_data_recv`, the command encoders `send_calibration_command` and
  `send_vibration_setting`, the water button callback `btn_water_cb` and the 30 ms LVGL
  timer callback `update_loop`;
* `Core_Posture/Sender_Code_C3/esp32-c3-mini.c`: the ESP-NOW receive callback `on_recv`,
  `read_mpu_data` and the `while (1)` loop of `app_main`.

Globals of the C files become fields of a state record and every callback becomes a
function from state to state.  Callbacks run to completion, so an execution of the
firmware is a sequence of callback invocations.

Conventions
* `int` is a 32-bit two's complement integer: arithmetic that can leave the range is
  wrapped with `wrap32`.
* `uint32_t` / `TickType_t` values are naturals reduced modulo `2 ^ 32`.
* A C `float` is represented by the value it denotes (`CFloat`): a rational for a finite
  number, or an infinity, or NaN.  Comparisons of floats are exact, so `fabs(p) > 15.0f`
  is embedded exactly.  Binary32 arithmetic is not embedded: the pixel offset
  `(int)raw_y` of the receiver is a field of `Board`, the subtraction of the sender a
  field of `SenderBoard`.
* The one binary64 operation, `remaining * 0.03` in `update_loop`, has an integer
  operand and is embedded exactly (`round53`, `total_seconds_of`).
* The length-one FreeRTOS queue `posture_queue` is an `Option posture_packet_t`.
* A received buffer is represented by the record its bytes denote together with the
  length `len` reported by the radio driver.
* Of the LVGL widgets, the receiver state keeps the status header, the link icon and the
  posture dot.  The countdown text is the function `water_timer_label` of the counter.
  The remaining labels (pitch text, water bar, chart) are written from the modelled
  globals and never read back.
-/

namespace CorePosture

/-! ## C scalar types -/

/-- Two's complement reduction of an integer to the range of a 32-bit `int`. -/
def wrap32 (x : Int) : Int := (x + 2 ^ 31) % 2 ^ 32 - 2 ^ 31

/-- Largest value of a 32-bit `int`. -/
def INT_MAX : Int := 2 ^ 31 - 1

/-- Difference of two `uint32_t` values, computed modulo `2 ^ 32` as in C. -/
def u32_sub (a b : Nat) : Nat := (a % 2 ^ 32 + (2 ^ 32 - b % 2 ^ 32)) % 2 ^ 32

/-- Value denoted by a C `float`. -/
inductive CFloat where
  | finite (q : ℚ)
  | inf (negative : Bool)
  | nan
deriving DecidableEq

namespace CFloat

/-- C library `fabs`: clears the sign. -/
def fabs : CFloat → CFloat
  | finite q => finite |q|
  | inf _ => inf false
  | nan => nan

/-- IEEE 754 comparison `a > b`; false as soon as one side is NaN. -/
def gt : CFloat → CFloat → Bool
  | nan, _ => false
  | _, nan => false
  | finite a, finite b => decide (b < a)
  | inf negative, finite _ => !negative
  | finite _, inf negative => negative
  | inf a, inf b => !a && b

/-- IEEE 754 comparison `a <= b`; false as soon as one side is NaN. -/
def le : CFloat → CFloat → Bool
  | nan, _ => false
  | _, nan => false
  | finite a, finite b => decide (a ≤ b)
  | inf negative, finite _ => negative
  | finite _, inf negative => !negative
  | inf a, inf b => a || !b

end CFloat

/-! ## Packets -/

/-- Telemetry record `posture_packet_t`. -/
structure posture_packet_t where
  pitch : CFloat
  roll : CFloat
  battery_level : Int
deriving DecidableEq

/-- Value of `sizeof(posture_packet_t)`: two 4-byte floats and one 4-byte int. -/
def sizeof_posture_packet_t : Int := 12

/-- Command record `command_packet_t`; both fields are `uint8_t`. -/
structure command_packet_t where
  command_id : Nat
  value : Nat
deriving DecidableEq

/-- Value of `sizeof(command_packet_t)`: two bytes. -/
def sizeof_command_packet_t : Int := 2

/-! ## Receiver state -/

/-- Texts that `label_posture_status` can hold. -/
inductive Status where
  | Waiting
  | Searching
  | Good
  | Slouch
  | Hydrate
deriving DecidableEq, Repr

/-- String literal written to `label_posture_status` for each status. -/
def Status.text : Status → String
  | Waiting => "WAITING..."
  | Searching => "SEARCHING..."
  | Good => "POSTURE GOOD"
  | Slouch => "SLOUCH DETECTED"
  | Hydrate => "DRINK WATER!"

/-- Colours the receiver assigns to the modelled widgets. -/
inductive Color where
  | WHITE
  | CYAN
  | GREEN
  | RED
  | ORANGE
  | TEXT_GRAY
deriving DecidableEq, Repr

/-- Globals of the receiver together with the modelled widgets. -/
structure Receiver where
  water_count : Int
  posture_queue : Option posture_packet_t
  last_packet_tick : Nat
  current_pitch : CFloat
  water_timer_ticks : Int
  water_alert_active : Bool
  minute_counter : Int
  label_posture_status : Status
  status_color : Color
  wifi_icon_color : Color
  dot_color : Color
  dot_y : Int
deriving DecidableEq

/-- State after `app_main` of the receiver has built the screen: the static initialisers
of the globals, an empty queue, header "WAITING...", grey link icon, centred cyan dot. -/
def Receiver.init : Receiver where
  water_count := 0
  posture_queue := none
  last_packet_tick := 0
  current_pitch := .finite 0
  water_timer_ticks := 0
  water_alert_active := false
  minute_counter := 0
  label_posture_status := .Waiting
  status_color := .WHITE
  wifi_icon_color := .TEXT_GRAY
  dot_color := .CYAN
  dot_y := 0

/-- Build-time constants and float arithmetic of the target that the two source files do
not fix: the FreeRTOS tick rate and the value `(int)raw_y` that `update_loop` computes
from a pitch `p` as `raw_y = p * 1.5f`, clamped to `[-45, 45]`, in binary32. -/
structure Board where
  configTICK_RATE_HZ : Nat
  raw_y_px : CFloat → Int

/-! ## FreeRTOS primitives used by the receiver -/

/-- FreeRTOS `xQueueOverwrite` on a queue of length one: the item replaces the content. -/
def xQueueOverwrite (_queue : Option posture_packet_t) (item : posture_packet_t) :
    Option posture_packet_t :=
  some item

/-- FreeRTOS `xQueueReceive` with a zero block time on a queue of length one: the result
is the item (`pdTRUE`) or nothing (`pdFALSE`), paired with the queue left behind. -/
def xQueueReceive (queue : Option posture_packet_t) :
    Option posture_packet_t × Option posture_packet_t :=
  (queue, none)

/-- FreeRTOS `xTaskGetTickCount`: the low 32 bits of the scheduler's tick counter. -/
def xTaskGetTickCount (tickCount : Nat) : Nat := tickCount % 2 ^ 32

/-- FreeRTOS `pdMS_TO_TICKS`, evaluated in `TickType_t` (32-bit unsigned). -/
def pdMS_TO_TICKS (configTICK_RATE_HZ ms : Nat) : Nat :=
  (ms % 2 ^ 32 * (configTICK_RATE_HZ % 2 ^ 32)) % 2 ^ 32 / 1000

/-! ## Receiver constants -/

/-- Source constant `CONNECTION_TIMEOUT_MS`. -/
def CONNECTION_TIMEOUT_MS : Nat := 3000

/-- Source constant `WATER_REMINDER_THRESHOLD`. -/
def WATER_REMINDER_THRESHOLD : Int := 120000

/-! ## Receiver callbacks -/

/-- Receiver `on_data_recv`: a buffer of exactly `sizeof(posture_packet_t)` bytes is
copied into a packet that overwrites the queue; any other buffer is ignored. -/
def on_data_recv (incomingData : posture_packet_t) (len : Int) (s : Receiver) : Receiver :=
  if len = sizeof_posture_packet_t then
    { s with posture_queue := xQueueOverwrite s.posture_queue incomingData }
  else s

/-- LVGL event codes that `btn_water_cb` distinguishes; the button is registered for
`LV_EVENT_ALL`, so every other code reaches the callback as well. -/
inductive lv_event_code_t where
  | SHORT_CLICKED
  | LONG_PRESSED
  | OTHER (code : Nat)
deriving DecidableEq

/-- Receiver `btn_water_cb`: a short click is a drink event, a long press a reset event. -/
def btn_water_cb (code : lv_event_code_t) (s : Receiver) : Receiver :=
  match code with
  | .SHORT_CLICKED =>
    { s with
      water_count := if s.water_count < 8 then wrap32 (s.water_count + 1) else s.water_count
      water_timer_ticks := 0
      water_alert_active := false }
  | .LONG_PRESSED => { s with water_count := 0 }
  | .OTHER _ => s

/-- First part of `update_loop` (source lines 429-439): the chart divider
`minute_counter` and the water timer. -/
def update_timers (s : Receiver) : Receiver :=
  let minute_counter := wrap32 (s.minute_counter + 1)
  let minute_counter := if minute_counter ≥ 2000 then 0 else minute_counter
  let water_timer_ticks := wrap32 (s.water_timer_ticks + 1)
  let water_alert_active :=
    if water_timer_ticks > WATER_REMINDER_THRESHOLD then true else s.water_alert_active
  { s with
    minute_counter := minute_counter
    water_timer_ticks := water_timer_ticks
    water_alert_active := water_alert_active }

/-- Receiver `update_loop`, one run of the 30 ms timer callback; `tickCount` is the
scheduler's tick counter at the time of the call. -/
def update_loop (b : Board) (tickCount : Nat) (s : Receiver) : Receiver :=
  let s := update_timers s
  match xQueueReceive s.posture_queue with
  | (some packet, queue) =>
    let p := packet.pitch
    let s := { s with
      posture_queue := queue
      last_packet_tick := xTaskGetTickCount tickCount
      wifi_icon_color := .GREEN
      current_pitch := p
      dot_y := b.raw_y_px p }
    if s.water_alert_active then
      { s with label_posture_status := .Hydrate, status_color := .ORANGE }
    else if (CFloat.fabs p).gt (.finite 15) then
      { s with dot_color := .RED, label_posture_status := .Slouch, status_color := .RED }
    else
      { s with dot_color := .CYAN, label_posture_status := .Good, status_color := .GREEN }
  | (none, queue) =>
    let s := { s with posture_queue := queue }
    if u32_sub (xTaskGetTickCount tickCount) s.last_packet_tick
        > pdMS_TO_TICKS b.configTICK_RATE_HZ CONNECTION_TIMEOUT_MS then
      { s with
        wifi_icon_color := .TEXT_GRAY
        label_posture_status := .Searching
        status_color := .TEXT_GRAY
        dot_y := 0 }
    else s

/-! ## Sender state and command dispatcher -/

/-- Globals of the sender that `on_recv` can touch, and the level of `LED_PIN`. -/
structure Sender where
  offset_pitch : CFloat
  offset_roll : CFloat
  trigger_calibration : Bool
  vibration_enabled : Bool
  led_level : Nat
deriving DecidableEq

/-- Sender `on_recv`: a buffer of exactly `sizeof(command_packet_t)` bytes is read as a
command; command 1 requests a calibration, command 2 sets the vibration flag and blinks
the LED (low for 50 ms, then high). -/
def on_recv (data : command_packet_t) (len : Int) (t : Sender) : Sender :=
  if len = sizeof_command_packet_t then
    if data.command_id = 1 then
      { t with trigger_calibration := true }
    else if data.command_id = 2 then
      { t with vibration_enabled := decide (data.value = 1), led_level := 1 }
    else t
  else t

/-! ## Concrete inputs used by the examples -/

/-- A board ticking at 1000 Hz whose pixel offset is the source expression evaluated in
exact arithmetic (product, clamp to `[-45, 45]`, truncation toward zero); this agrees with
binary32 whenever `p * 1.5` is representable. -/
def board1kHz : Board where
  configTICK_RATE_HZ := 1000
  raw_y_px := fun p =>
    match p with
    | .finite q =>
      let raw_y := q * 3 / 2
      let raw_y := if raw_y > 45 then 45 else raw_y
      let raw_y := if raw_y < -45 then -45 else raw_y
      Int.tdiv raw_y.num raw_y.den
    | .inf negative => if negative then -45 else 45
    | .nan => 0

/-- Telemetry packet with the given whole-degree pitch, level roll and battery 95. -/
def packetOfPitch (degrees : Int) : posture_packet_t where
  pitch := .finite degrees
  roll := .finite 0
  battery_level := 95

/-- Receiver whose link is down: no packet drained so far, header Searching, grey icon,
centred dot, water globals at their start values. -/
def linkDown : Receiver :=
  { Receiver.init with label_posture_status := .Searching, status_color := .TEXT_GRAY }

/-- Link down, hydration due since the last tick, a packet of pitch 5 in the slot. -/
def thirstyPitch5 : Receiver :=
  { linkDown with
    posture_queue := some (packetOfPitch 5)
    water_timer_ticks := 120001
    water_alert_active := true
    minute_counter := 1 }

/-- Link down, hydration not due, a packet of pitch 20 in the slot. -/
def freshPitch20 : Receiver :=
  { linkDown with posture_queue := some (packetOfPitch 20) }

/-- Receiver that showed a slouch of 20 degrees for the packet drained at tick 4000000;
hydration became due 50 ticks ago and the slot is empty. -/
def silentAfterSlouch : Receiver :=
  { linkDown with
    last_packet_tick := 4000000
    current_pitch := .finite 20
    water_timer_ticks := 120050
    water_alert_active := true
    minute_counter := 50
    label_posture_status := .Slouch
    status_color := .RED
    wifi_icon_color := .GREEN
    dot_color := .RED
    dot_y := 30 }

/-- The same receiver later, after the link was declared lost: header Searching, grey
icon, centred dot. -/
def searchingAfterSlouch : Receiver :=
  { silentAfterSlouch with
    water_timer_ticks := 150000
    minute_counter := 0
    label_posture_status := .Searching
    status_color := .TEXT_GRAY
    wifi_icon_color := .TEXT_GRAY
    dot_y := 0 }

/-- Link down, hydration not due, a packet of pitch 5 in the slot. -/
def freshPitch5 : Receiver :=
  { linkDown with posture_queue := some (packetOfPitch 5) }

/-- Receiver that drained a packet of pitch 5 at tick 4000000 with no hydration alert. -/
def shownGood : Receiver := update_loop board1kHz 4000000 freshPitch5

/-- Receiver that drained a packet of pitch 5 at tick 4000000 while hydration was due and
then registered a drink event. -/
def shownHydrateThenDrank : Receiver :=
  btn_water_cb .SHORT_CLICKED (update_loop board1kHz 4000000 thirstyPitch5)

/-- Link down, the water timer at the threshold, a packet of pitch 5 in the slot. -/
def almostThirstyPitch5 : Receiver :=
  { freshPitch5 with water_timer_ticks := 120000 }

/-- Link down, the water timer at 119999: the next tick makes the counter reach the
threshold. -/
def oneTickBeforeThreshold : Receiver :=
  { linkDown with water_timer_ticks := 119999, minute_counter := 1999 }

/-! ## Executions of the receiver -/

/-- One callback invocation on the receiver. -/
inductive Event where
  | tick (tickCount : Nat)
  | button (code : lv_event_code_t)
  | recv (incomingData : posture_packet_t) (len : Int)

/-- Effect of one callback invocation. -/
def step (b : Board) (e : Event) (s : Receiver) : Receiver :=
  match e with
  | .tick tickCount => update_loop b tickCount s
  | .button code => btn_water_cb code s
  | .recv incomingData len => on_data_recv incomingData len s

/-- Effect of a sequence of callback invocations, first event first. -/
def run (b : Board) : List Event → Receiver → Receiver
  | [], s => s
  | e :: es, s => run b es (step b e s)

/-- Every timer tick of the sequence starts with `water_timer_ticks` below `INT_MAX`,
so that the increment in `update_loop` does not overflow. -/
def ticksInRange (b : Board) : List Event → Receiver → Bool
  | [], _ => true
  | .tick tickCount :: es, s =>
    decide (s.water_timer_ticks < INT_MAX) && ticksInRange b es (update_loop b tickCount s)
  | e :: es, s => ticksInRange b es (step b e s)

/-- The sequence contains no drink event (short click on the water button). -/
def noDrink : List Event → Bool
  | [] => true
  | .button .SHORT_CLICKED :: _ => false
  | _ :: es => noDrink es

/-- Number of timer ticks in the sequence. -/
def countTicks : List Event → Nat
  | [] => 0
  | .tick _ :: es => countTicks es + 1
  | _ :: es => countTicks es

/-- Delivery of a run of full-length telemetry buffers to `on_data_recv`, oldest first. -/
def deliver : List posture_packet_t → Receiver → Receiver
  | [], s => s
  | packet :: rest, s => deliver rest (on_data_recv packet sizeof_posture_packet_t s)

/-! ## Concrete executions used by the examples -/

/-- A short drink-free sequence: tick, rejected buffer, long press, tick. -/
def twoTicksNoDrink : List Event :=
  [.tick 30, .recv (packetOfPitch 5) 3, .button .LONG_PRESSED, .tick 60]

/-- A short sequence with a drink event: tick, drink, tick, long press. -/
def tickDrinkTickReset : List Event :=
  [.tick 30, .button .SHORT_CLICKED, .tick 60, .button .LONG_PRESSED]

/-! ## Countdown text of the receiver -/

/-- The binary64 constant `0.03` of `update_loop` is `DOUBLE_0_03_NUM / 2 ^ 58`: the
double nearest to 3/100, `0x1.eb851eb851eb8p-6`. -/
def DOUBLE_0_03_NUM : Nat := 8646911284551352

/-- Number of low bits that a natural number has beyond 53 significant bits, found by
halving at most `fuel` times. -/
def excessBits : Nat → Nat → Nat
  | 0, _ => 0
  | fuel + 1, n => if n < 2 ^ 53 then 0 else excessBits fuel (n / 2) + 1

/-- Rounding of a natural number below `2 ^ 117` to 53 significant bits, to nearest with
ties to even: the binary64 rounding of `n / 2 ^ 58` is `round53 n / 2 ^ 58`. -/
def round53 (n : Nat) : Nat :=
  let shift := excessBits 64 n
  let q := n / 2 ^ shift
  let rem := n % 2 ^ shift
  let q := if 2 * rem > 2 ^ shift ∨ (2 * rem = 2 ^ shift ∧ q % 2 = 1) then q + 1 else q
  q * 2 ^ shift

/-- C expression `(int)(remaining * 0.03)` for a non-negative `int remaining`: the
conversion to double is exact, the product is rounded once in binary64, and the
conversion to `int` truncates. -/
def total_seconds_of (remaining : Nat) : Nat :=
  round53 (remaining * DOUBLE_0_03_NUM) / 2 ^ 58

/-- Source lines 441-447 of `update_loop`: the pair `(mins, secs)` that is printed with
"%02d:%02d" into `label_water_timer`, from the value `water_timer_ticks` has after the
increment of the same tick. -/
def water_timer_label (water_timer_ticks : Int) : Int × Int :=
  let remaining := wrap32 (WATER_REMINDER_THRESHOLD - water_timer_ticks)
  let remaining := if remaining < 0 then 0 else remaining
  let total_seconds : Int := total_seconds_of remaining.toNat
  (Int.tdiv total_seconds 60, Int.tmod total_seconds 60)

/-- Pair `(mins, secs)` that one run of `update_loop` from state `s` prints. -/
def update_loop_timer_label (s : Receiver) : Int × Int :=
  water_timer_label (update_timers s).water_timer_ticks

/-! ## Command encoder of the receiver -/

/-- Receiver `send_calibration_command`: the record and the length handed to
`esp_now_send`. -/
def send_calibration_command : command_packet_t × Int :=
  ({ command_id := 1, value := 0 }, sizeof_command_packet_t)

/-- Receiver `send_vibration_setting`: the record and the length handed to
`esp_now_send`. -/
def send_vibration_setting (enabled : Bool) : command_packet_t × Int :=
  ({ command_id := 2, value := if enabled then 1 else 0 }, sizeof_command_packet_t)

/-! ## Sampling loop of the sender

One iteration of the `while (1)` loop of the sender's `app_main` is one step.  The
receive callback `on_recv` runs in another task; it only sets flags that the loop polls,
and the embedding delivers it between iterations.

The accelerometer conversion of `read_mpu_data` uses `atan2` and `sqrt`; an I2C transfer
is therefore represented by the pair of angles the function stores when the transfer
returns `ESP_OK`, and by `none` when it does not.  The locals `raw_p` and `raw_r` are
declared inside the loop body without initialiser, so their content at the start of an
iteration is indeterminate; it is an input of the iteration.  The source writes the two
locals only in `read_mpu_data` on `ESP_OK`; `locals_after` is what an iteration leaves
in them, and so what the next iteration finds when their storage is kept. -/

/-- Source constant `BAD_POSTURE_ANGLE`. -/
def BAD_POSTURE_ANGLE : CFloat := .finite 15

/-- Float arithmetic of the sender's target: the binary32 subtraction. -/
structure SenderBoard where
  float_sub : CFloat → CFloat → CFloat

/-- Sender `read_mpu_data`: on `ESP_OK` the two angles are stored through `p` and `r`,
otherwise both are left as they are. -/
def read_mpu_data (transfer : Option (CFloat × CFloat)) (p r : CFloat) : CFloat × CFloat :=
  match transfer with
  | some angles => angles
  | none => (p, r)

/-- What one loop iteration reads from outside. -/
structure LoopInput where
  /-- Indeterminate content of the fresh local `raw_p`. -/
  uninit_p : CFloat
  /-- Indeterminate content of the fresh local `raw_r`. -/
  uninit_r : CFloat
  /-- I2C transfer of the `read_mpu_data` call at the top of the loop. -/
  transfer : Option (CFloat × CFloat)
  /-- Level of `BUTTON_PIN` at the first test; 0 is pressed. -/
  button : Nat
  /-- Level of `BUTTON_PIN` at the second test, after the 50 ms debounce delay. -/
  button_debounced : Nat
  /-- I2C transfer of the `read_mpu_data` call at the end of the countdown. -/
  capture_transfer : Option (CFloat × CFloat)

/-- State of the sender between loop iterations: the globals, the local `packet` of
`app_main`, the level of `VIB_MOTOR_PIN`, the number of times the motor was switched on,
and the log of packets handed to `esp_now_send`, oldest first. -/
structure SenderLoop where
  globals : Sender
  packet : posture_packet_t
  vib_motor_level : Nat
  motor_pulses : Nat
  sent : List posture_packet_t

/-- Initial value of `packet` in `app_main`: pitch 0, roll 0, battery 95. -/
def default_packet : posture_packet_t where
  pitch := .finite 0
  roll := .finite 0
  battery_level := 95

/-- Sender when `app_main` enters the loop: the static initialisers of the globals, the
default packet, nothing sent; the pin levels left by the GPIO set-up are parameters. -/
def SenderLoop.init (led_level vib_motor_level : Nat) : SenderLoop where
  globals :=
    { offset_pitch := .finite 0
      offset_roll := .finite 0
      trigger_calibration := false
      vibration_enabled := true
      led_level := led_level }
  packet := default_packet
  vib_motor_level := vib_motor_level
  motor_pulses := 0
  sent := []

/-- Test `trigger_calibration || gpio_get_level(BUTTON_PIN) == 0`. -/
def calibration_requested (t : SenderLoop) (button : Nat) : Bool :=
  t.globals.trigger_calibration || decide (button = 0)

/-- Both tests of the calibration block pass, so the iteration runs the handshake. -/
def enters_calibration (t : SenderLoop) (i : LoopInput) : Bool :=
  calibration_requested t i.button && calibration_requested t i.button_debounced

/-- The countdown `for (int i = 3; i > 0; i--)` started with `i` units to go: each unit
sends the current `packet` and blinks the LED (low 200 ms, high 800 ms). -/
def keep_alive_countdown : Nat → SenderLoop → SenderLoop
  | 0, t => t
  | i + 1, t =>
    keep_alive_countdown i
      { t with
        sent := t.sent ++ [t.packet]
        globals := { t.globals with led_level := 1 } }

/-- The handshake of the calibration block (source lines 150-170): motor off, countdown
with keep-alive, one more `read_mpu_data`, capture of the offsets, flag cleared, three
confirmation blinks.  The result carries the locals `raw_p`, `raw_r` as well. -/
def handshake (i : LoopInput) (raw : CFloat × CFloat) (t : SenderLoop) :
    SenderLoop × (CFloat × CFloat) :=
  let t := { t with vib_motor_level := 0 }
  let t := keep_alive_countdown 3 t
  let raw := read_mpu_data i.capture_transfer raw.1 raw.2
  ({ t with
      globals :=
        { t.globals with
          offset_pitch := raw.1
          offset_roll := raw.2
          trigger_calibration := false
          led_level := 1 } },
    raw)

/-- Data and feedback part of the loop (source lines 174-206): the offsets are
subtracted, the packet is filled and sent, and on a bad angle the motor is pulsed when
vibration is enabled.  Both branches leave the motor off and the LED high. -/
def report (b : SenderBoard) (raw : CFloat × CFloat) (t : SenderLoop) : SenderLoop :=
  let real_pitch := b.float_sub raw.1 t.globals.offset_pitch
  let real_roll := b.float_sub raw.2 t.globals.offset_roll
  let packet : posture_packet_t :=
    { pitch := real_pitch, roll := real_roll, battery_level := 95 }
  if (CFloat.fabs real_pitch).gt BAD_POSTURE_ANGLE then
    { t with
      motor_pulses := if t.globals.vibration_enabled then t.motor_pulses + 1 else t.motor_pulses
      vib_motor_level := 0
      globals := { t.globals with led_level := 1 }
      packet := packet
      sent := t.sent ++ [packet] }
  else
    { t with
      vib_motor_level := 0
      globals := { t.globals with led_level := 1 }
      packet := packet
      sent := t.sent ++ [packet] }

/-- Locals `raw_p`, `raw_r` after the `read_mpu_data` call at the top of the loop. -/
def raw_reading (i : LoopInput) : CFloat × CFloat :=
  read_mpu_data i.transfer i.uninit_p i.uninit_r

/-- One iteration of the `while (1)` loop of the sender's `app_main`. -/
def loop_iteration (b : SenderBoard) (i : LoopInput) (t : SenderLoop) : SenderLoop :=
  let raw := raw_reading i
  if enters_calibration t i then
    let calibrated := handshake i raw t
    report b calibrated.2 calibrated.1
  else
    report b raw t

/-- One step of the sender: a loop iteration or a delivery to `on_recv`. -/
inductive SenderEvent where
  | iteration (i : LoopInput)
  | command (data : command_packet_t) (len : Int)

/-- Effect of one step of the sender. -/
def senderStep (b : SenderBoard) (e : SenderEvent) (t : SenderLoop) : SenderLoop :=
  match e with
  | .iteration i => loop_iteration b i t
  | .command data len => { t with globals := on_recv data len t.globals }

/-- Effect of a sequence of steps of the sender, first step first. -/
def senderRun (b : SenderBoard) : List SenderEvent → SenderLoop → SenderLoop
  | [], t => t
  | e :: es, t => senderRun b es (senderStep b e t)

/-- No loop iteration of the sequence runs the handshake. -/
def noHandshake (b : SenderBoard) : List SenderEvent → SenderLoop → Bool
  | [], _ => true
  | .iteration i :: es, t =>
    !enters_calibration t i && noHandshake b es (loop_iteration b i t)
  | e :: es, t => noHandshake b es (senderStep b e t)

/-- Packets that loop iterations without handshake send under the offsets
`offset_pitch`, `offset_roll`: one per iteration, the reading of the iteration minus
the offset, battery 95. -/
def dataPackets (b : SenderBoard) (offset_pitch offset_roll : CFloat) :
    List SenderEvent → List posture_packet_t
  | [] => []
  | .iteration i :: es =>
    { pitch := b.float_sub (raw_reading i).1 offset_pitch
      roll := b.float_sub (raw_reading i).2 offset_roll
      battery_level := 95 } :: dataPackets b offset_pitch offset_roll es
  | _ :: es => dataPackets b offset_pitch offset_roll es

/-- The telemetry sample the sender last produced: the last packet of the log, or the
default packet when nothing has been sent. -/
def previous_sample (t : SenderLoop) : posture_packet_t :=
  t.sent.getLast?.getD default_packet

/-! ## Concrete sender inputs used by the examples -/

/-- Subtraction of the denoted values; it agrees with binary32 whenever the exact
difference is representable. -/
def exactSub : CFloat → CFloat → CFloat
  | .nan, _ => .nan
  | _, .nan => .nan
  | .finite a, .finite b => .finite (a - b)
  | .inf negative, .finite _ => .inf negative
  | .finite _, .inf negative => .inf (!negative)
  | .inf a, .inf b => if a = b then .nan else .inf a

/-- A sender board that subtracts exactly. -/
def exactSenderBoard : SenderBoard where
  float_sub := exactSub

/-- Loop input with the button released, a successful transfer of the given whole-degree
angles, and zeros in the fresh locals. -/
def sampleOf (pitch roll : Int) : LoopInput where
  uninit_p := .finite 0
  uninit_r := .finite 0
  transfer := some (.finite pitch, .finite roll)
  button := 1
  button_debounced := 1
  capture_transfer := none

/-- Loop input with the button held down: the top transfer yields (12, 3) and the
transfer at the end of the countdown yields (10, 2). -/
def buttonHeld : LoopInput where
  uninit_p := .finite 0
  uninit_r := .finite 0
  transfer := some (.finite 12, .finite 3)
  button := 0
  button_debounced := 0
  capture_transfer := some (.finite 10, .finite 2)

/-! ## Unfolding lemmas for `update_loop` -/

theorem update_timers_posture_queue (s : Receiver) :
    (update_timers s).posture_queue = s.posture_queue := rfl

theorem update_timers_last_packet_tick (s : Receiver) :
    (update_timers s).last_packet_tick = s.last_packet_tick := rfl

theorem update_timers_label (s : Receiver) :
    (update_timers s).label_posture_status = s.label_posture_status := rfl

theorem update_loop_of_some (b : Board) (tickCount : Nat) (s : Receiver)
    (packet : posture_packet_t) (hq : s.posture_queue = some packet) :
    update_loop b tickCount s =
      let s1 := { update_timers s with
        posture_queue := none
        last_packet_tick := xTaskGetTickCount tickCount
        wifi_icon_color := .GREEN
        current_pitch := packet.pitch
        dot_y := b.raw_y_px packet.pitch }
      if (update_timers s).water_alert_active then
        { s1 with label_posture_status := .Hydrate, status_color := .ORANGE }
      else if (CFloat.fabs packet.pitch).gt (.finite 15) then
        { s1 with dot_color := .RED, label_posture_status := .Slouch, status_color := .RED }
      else
        { s1 with dot_color := .CYAN, label_posture_status := .Good, status_color := .GREEN } := by
  unfold update_loop xQueueReceive
  simp only [update_timers_posture_queue, hq]

theorem update_loop_of_none (b : Board) (tickCount : Nat) (s : Receiver)
    (hq : s.posture_queue = none) :
    update_loop b tickCount s =
      if u32_sub (xTaskGetTickCount tickCount) s.last_packet_tick
          > pdMS_TO_TICKS b.configTICK_RATE_HZ CONNECTION_TIMEOUT_MS then
        { update_timers s with
          posture_queue := none
          wifi_icon_color := .TEXT_GRAY
          label_posture_status := .Searching
          status_color := .TEXT_GRAY
          dot_y := 0 }
      else { update_timers s with posture_queue := none } := by
  unfold update_loop xQueueReceive
  simp only [update_timers_posture_queue, update_timers_last_packet_tick, hq]

/-! ## Frame lemmas: what each callback does to the water globals -/

theorem wrap32_of_range (x : Int) (hlo : -2 ^ 31 ≤ x) (hhi : x < 2 ^ 31) : wrap32 x = x := by
  unfold wrap32
  rw [Int.emod_eq_of_lt (by omega) (by omega)]
  omega

theorem update_loop_water_timer_ticks (b : Board) (tickCount : Nat) (s : Receiver) :
    (update_loop b tickCount s).water_timer_ticks = (update_timers s).water_timer_ticks := by
  cases hq : s.posture_queue with
  | some packet =>
    rw [update_loop_of_some b tickCount s packet hq]
    dsimp only
    split
    · rfl
    · split <;> rfl
  | none =>
    rw [update_loop_of_none b tickCount s hq]
    split <;> rfl

theorem update_loop_water_alert_active (b : Board) (tickCount : Nat) (s : Receiver) :
    (update_loop b tickCount s).water_alert_active = (update_timers s).water_alert_active := by
  cases hq : s.posture_queue with
  | some packet =>
    rw [update_loop_of_some b tickCount s packet hq]
    dsimp only
    split
    · rfl
    · split <;> rfl
  | none =>
    rw [update_loop_of_none b tickCount s hq]
    split <;> rfl

theorem update_loop_water_count (b : Board) (tickCount : Nat) (s : Receiver) :
    (update_loop b tickCount s).water_count = s.water_count := by
  cases hq : s.posture_queue with
  | some packet =>
    rw [update_loop_of_some b tickCount s packet hq]
    dsimp only
    split
    · rfl
    · split <;> rfl
  | none =>
    rw [update_loop_of_none b tickCount s hq]
    split <;> rfl

theorem update_timers_water_timer_ticks (s : Receiver) :
    (update_timers s).water_timer_ticks = wrap32 (s.water_timer_ticks + 1) := rfl

theorem update_timers_water_alert_active (s : Receiver) :
    (update_timers s).water_alert_active =
      if wrap32 (s.water_timer_ticks + 1) > WATER_REMINDER_THRESHOLD then true
      else s.water_alert_active := rfl

theorem on_data_recv_water (incomingData : posture_packet_t) (len : Int) (s : Receiver) :
    (on_data_recv incomingData len s).water_timer_ticks = s.water_timer_ticks ∧
      (on_data_recv incomingData len s).water_alert_active = s.water_alert_active ∧
      (on_data_recv incomingData len s).water_count = s.water_count := by
  unfold on_data_recv
  split <;> exact ⟨rfl, rfl, rfl⟩

/-- One tick with the counter in range: the counter grows by one and the flag is the
old flag or the threshold test on the new counter. -/
theorem update_loop_water_step (b : Board) (tickCount : Nat) (s : Receiver)
    (hlo : -2 ^ 31 ≤ s.water_timer_ticks) (hhi : s.water_timer_ticks < INT_MAX) :
    (update_loop b tickCount s).water_timer_ticks = s.water_timer_ticks + 1 ∧
      ((update_loop b tickCount s).water_alert_active = true ↔
        (s.water_alert_active = true ∨ WATER_REMINDER_THRESHOLD < s.water_timer_ticks + 1)) := by
  unfold INT_MAX at hhi
  rw [update_loop_water_timer_ticks, update_loop_water_alert_active,
    update_timers_water_timer_ticks, update_timers_water_alert_active,
    wrap32_of_range _ (by omega) (by omega)]
  refine ⟨rfl, ?_⟩
  by_cases h : s.water_timer_ticks + 1 > WATER_REMINDER_THRESHOLD
  · simp [h]
  · simp [h]

/-- A tick never clears the hydration flag. -/
theorem update_loop_keeps_alert (b : Board) (tickCount : Nat) (s : Receiver)
    (h : s.water_alert_active = true) :
    (update_loop b tickCount s).water_alert_active = true := by
  rw [update_loop_water_alert_active, update_timers_water_alert_active, h]
  simp

/-- Drink-free events keep a raised hydration flag raised. -/
theorem run_noDrink_keeps_alert (b : Board) :
    ∀ (es : List Event) (s : Receiver), noDrink es = true → s.water_alert_active = true →
      (run b es s).water_alert_active = true
  | [], _, _, h => h
  | .tick tickCount :: es, s, hnd, h =>
    run_noDrink_keeps_alert b es _ (by simpa [noDrink] using hnd)
      (update_loop_keeps_alert b tickCount s h)
  | .recv incomingData len :: es, s, hnd, h =>
    run_noDrink_keeps_alert b es _ (by simpa [noDrink] using hnd)
      ((on_data_recv_water incomingData len s).2.1.trans h)
  | .button .SHORT_CLICKED :: _, _, hnd, _ => by simp [noDrink] at hnd
  | .button .LONG_PRESSED :: es, s, hnd, h =>
    run_noDrink_keeps_alert b es _ (by simpa [noDrink] using hnd) h
  | .button (.OTHER _) :: es, s, hnd, h =>
    run_noDrink_keeps_alert b es _ (by simpa [noDrink] using hnd) h

/-- Drink-free events with the counter in range: the counter advances by the number of
ticks, and the flag keeps tracking the threshold test. -/
theorem run_noDrink_timer (b : Board) :
    ∀ (es : List Event) (s : Receiver), noDrink es = true →
      -2 ^ 31 ≤ s.water_timer_ticks → s.water_timer_ticks + countTicks es ≤ INT_MAX →
      (s.water_alert_active = true ↔ WATER_REMINDER_THRESHOLD < s.water_timer_ticks) →
      (run b es s).water_timer_ticks = s.water_timer_ticks + countTicks es ∧
        ((run b es s).water_alert_active = true ↔
          WATER_REMINDER_THRESHOLD < s.water_timer_ticks + countTicks es)
  | [], s, _, _, _, hinv => by simpa [run, countTicks] using hinv
  | .tick tickCount :: es, s, hnd, hlo, hhi, hinv => by
    have hc : (countTicks (.tick tickCount :: es) : Int) = countTicks es + 1 := by
      simp [countTicks]
    rw [hc] at hhi ⊢
    have hstep := update_loop_water_step b tickCount s hlo (by omega)
    have ih := run_noDrink_timer b es (update_loop b tickCount s)
      (by simpa [noDrink] using hnd) (by rw [hstep.1]; omega) (by rw [hstep.1]; omega)
      (by
        rw [hstep.2, hstep.1, hinv]
        unfold WATER_REMINDER_THRESHOLD
        omega)
    rw [hstep.1] at ih
    simp only [run, step]
    constructor
    · rw [ih.1]; omega
    · rw [ih.2]
      constructor <;> intro h <;> omega
  | .recv incomingData len :: es, s, hnd, hlo, hhi, hinv => by
    have hf := on_data_recv_water incomingData len s
    have ih := run_noDrink_timer b es (on_data_recv incomingData len s)
      (by simpa [noDrink] using hnd) (by rw [hf.1]; exact hlo)
      (by rw [hf.1]; simpa [countTicks] using hhi) (by rw [hf.1, hf.2.1]; exact hinv)
    rw [hf.1] at ih
    simpa [run, step, countTicks] using ih
  | .button .SHORT_CLICKED :: _, _, hnd, _, _, _ => by simp [noDrink] at hnd
  | .button .LONG_PRESSED :: es, s, hnd, hlo, hhi, hinv => by
    have ih := run_noDrink_timer b es (btn_water_cb .LONG_PRESSED s)
      (by simpa [noDrink] using hnd) hlo (by simpa [countTicks] using hhi) hinv
    simpa [run, step, countTicks] using ih
  | .button (.OTHER code) :: es, s, hnd, hlo, hhi, hinv => by
    have ih := run_noDrink_timer b es (btn_water_cb (.OTHER code) s)
      (by simpa [noDrink] using hnd) hlo (by simpa [countTicks] using hhi) hinv
    simpa [run, step, countTicks] using ih

theorem btn_water_cb_short (s : Receiver) :
    btn_water_cb .SHORT_CLICKED s =
      { s with
        water_count := if s.water_count < 8 then wrap32 (s.water_count + 1) else s.water_count
        water_timer_ticks := 0
        water_alert_active := false } := rfl

/-- A drink event on a count in `[0, 8]` gives a count in `[0, 8]` again, namely
`min (old + 1) 8`. -/
theorem btn_water_cb_short_water_count (s : Receiver) (hlo : 0 ≤ s.water_count)
    (hhi : s.water_count ≤ 8) :
    (btn_water_cb .SHORT_CLICKED s).water_count = min (s.water_count + 1) 8 := by
  rw [btn_water_cb_short]
  dsimp only
  by_cases h : s.water_count < 8
  · rw [if_pos h, wrap32_of_range _ (by omega) (by omega)]
    omega
  · rw [if_neg h]
    omega

/-- The drink count stays in `[0, 8]` along every execution. -/
theorem run_water_count_range (b : Board) :
    ∀ (es : List Event) (s : Receiver), 0 ≤ s.water_count → s.water_count ≤ 8 →
      0 ≤ (run b es s).water_count ∧ (run b es s).water_count ≤ 8
  | [], _, hlo, hhi => ⟨hlo, hhi⟩
  | .tick tickCount :: es, s, hlo, hhi =>
    run_water_count_range b es _ (by rw [step, update_loop_water_count]; exact hlo)
      (by rw [step, update_loop_water_count]; exact hhi)
  | .recv incomingData len :: es, s, hlo, hhi =>
    run_water_count_range b es _ (by rw [step, (on_data_recv_water _ _ s).2.2]; exact hlo)
      (by rw [step, (on_data_recv_water _ _ s).2.2]; exact hhi)
  | .button .SHORT_CLICKED :: es, s, hlo, hhi =>
    run_water_count_range b es _
      (by rw [step, btn_water_cb_short_water_count s hlo hhi]; omega)
      (by rw [step, btn_water_cb_short_water_count s hlo hhi]; omega)
  | .button .LONG_PRESSED :: es, s, _, _ =>
    run_water_count_range b es _ (le_refl (0 : Int)) (by norm_num [step, btn_water_cb])
  | .button (.OTHER _) :: es, s, hlo, hhi => run_water_count_range b es _ hlo hhi

/-- Along an execution whose ticks never overflow the counter, the counter stays
non-negative and the flag is raised exactly when the counter exceeds the threshold. -/
theorem run_timer_invariant (b : Board) :
    ∀ (es : List Event) (s : Receiver), ticksInRange b es s = true →
      0 ≤ s.water_timer_ticks →
      (s.water_alert_active = true ↔ WATER_REMINDER_THRESHOLD < s.water_timer_ticks) →
      0 ≤ (run b es s).water_timer_ticks ∧
        ((run b es s).water_alert_active = true ↔
          WATER_REMINDER_THRESHOLD < (run b es s).water_timer_ticks)
  | [], _, _, hlo, hinv => ⟨hlo, hinv⟩
  | .tick tickCount :: es, s, hr, hlo, hinv => by
    simp only [ticksInRange, Bool.and_eq_true, decide_eq_true_eq] at hr
    have hstep := update_loop_water_step b tickCount s (by omega) hr.1
    exact run_timer_invariant b es (update_loop b tickCount s) hr.2
      (by rw [hstep.1]; omega)
      (by
        rw [hstep.2, hstep.1, hinv]
        unfold WATER_REMINDER_THRESHOLD
        omega)
  | .recv incomingData len :: es, s, hr, hlo, hinv => by
    have hf := on_data_recv_water incomingData len s
    exact run_timer_invariant b es (on_data_recv incomingData len s)
      (by simpa [ticksInRange, step] using hr) (by rw [hf.1]; exact hlo)
      (by rw [hf.1, hf.2.1]; exact hinv)
  | .button .SHORT_CLICKED :: es, s, hr, _, _ =>
    run_timer_invariant b es (btn_water_cb .SHORT_CLICKED s)
      (by simpa [ticksInRange, step] using hr) (le_refl (0 : Int))
      (by simp [btn_water_cb, WATER_REMINDER_THRESHOLD])
  | .button .LONG_PRESSED :: es, s, hr, hlo, hinv =>
    run_timer_invariant b es (btn_water_cb .LONG_PRESSED s)
      (by simpa [ticksInRange, step] using hr) hlo hinv
  | .button (.OTHER code) :: es, s, hr, hlo, hinv =>
    run_timer_invariant b es (btn_water_cb (.OTHER code) s)
      (by simpa [ticksInRange, step] using hr) hlo hinv

/-- After a non-empty run of accepted buffers the slot holds the last one. -/
theorem deliver_posture_queue (packets : List posture_packet_t) :
    ∀ (s : Receiver) (h : packets ≠ []),
      (deliver packets s).posture_queue = some (packets.getLast h) := by
  induction packets with
  | nil => intro s h; exact absurd rfl h
  | cons packet rest ih =>
    intro s _
    cases rest with
    | nil => simp [deliver, on_data_recv, xQueueOverwrite]
    | cons next rest =>
      rw [List.getLast_cons (List.cons_ne_nil next rest)]
      exact ih (on_data_recv packet sizeof_posture_packet_t s) (List.cons_ne_nil next rest)

/-- A tick that finds the slot empty keeps the last pitch and the last stamp. -/
theorem update_loop_of_none_keeps (b : Board) (tickCount : Nat) (s : Receiver)
    (hq : s.posture_queue = none) :
    (update_loop b tickCount s).current_pitch = s.current_pitch ∧
      (update_loop b tickCount s).last_packet_tick = s.last_packet_tick := by
  rw [update_loop_of_none b tickCount s hq]
  split <;> exact ⟨rfl, rfl⟩

/-- As long as `3000 * configTICK_RATE_HZ` fits 32 bits, the timeout is three seconds
worth of ticks. -/
theorem pdMS_TO_TICKS_timeout (rate : Nat) (h : 3000 * rate < 2 ^ 32) :
    pdMS_TO_TICKS rate CONNECTION_TIMEOUT_MS = 3 * rate := by
  unfold pdMS_TO_TICKS CONNECTION_TIMEOUT_MS
  have hr : rate % 2 ^ 32 = rate := Nat.mod_eq_of_lt (by omega)
  have hm : 3000 % 2 ^ 32 = 3000 := by norm_num
  rw [hr, hm, Nat.mod_eq_of_lt h]
  omega

/-! ## Alert priority on a tick that drains a packet -/

/-- C1: on a tick of `update_loop` that drains a telemetry packet while
`water_alert_active` is true after the timer update of that tick, the header is set to
Hydrate ("DRINK WATER!") in orange, whatever the pitch of the packet and whatever the
state before the tick. -/
theorem update_loop_hydrate_overrides (b : Board) (tickCount : Nat) (s : Receiver)
    (packet : posture_packet_t) (hq : s.posture_queue = some packet)
    (hw : (update_timers s).water_alert_active = true) :
    (update_loop b tickCount s).label_posture_status = .Hydrate ∧
      (update_loop b tickCount s).label_posture_status ≠ .Slouch ∧
      (update_loop b tickCount s).label_posture_status ≠ .Good ∧
      (update_loop b tickCount s).status_color = .ORANGE := by
  rw [update_loop_of_some b tickCount s packet hq]
  simp [hw]

/-- Scenario 2 of the specification for C1: pitch 5 degrees, hydration due, a packet in
the slot: the header becomes Hydrate. -/
theorem update_loop_hydrate_overrides_witness :
    (update_loop board1kHz 4000000 thirstyPitch5).label_posture_status = .Hydrate :=
  (update_loop_hydrate_overrides board1kHz 4000000 thirstyPitch5 (packetOfPitch 5) rfl rfl).1

/-- C2: on a tick of `update_loop` that drains a telemetry packet with pitch `p` while
`water_alert_active` is false after the timer update of that tick, the header is set to
Slouch when `fabs(p) > 15` and to Good when `fabs(p) <= 15`; in particular a pitch of
exactly 15 or -15 degrees is Good. -/
theorem update_loop_pitch_classification (b : Board) (tickCount : Nat) (s : Receiver)
    (packet : posture_packet_t) (hq : s.posture_queue = some packet)
    (hw : (update_timers s).water_alert_active = false) :
    ((CFloat.fabs packet.pitch).gt (.finite 15) = true →
        (update_loop b tickCount s).label_posture_status = .Slouch) ∧
      ((CFloat.fabs packet.pitch).le (.finite 15) = true →
        (update_loop b tickCount s).label_posture_status = .Good) ∧
      (∀ q : ℚ, packet.pitch = .finite q → 15 < |q| →
        (update_loop b tickCount s).label_posture_status = .Slouch) ∧
      (∀ q : ℚ, packet.pitch = .finite q → |q| ≤ 15 →
        (update_loop b tickCount s).label_posture_status = .Good) := by
  rw [update_loop_of_some b tickCount s packet hq]
  refine ⟨?_, ?_, ?_, ?_⟩
  · intro hgt
    simp [hw, hgt]
  · intro hle
    have hgt : (CFloat.fabs packet.pitch).gt (.finite 15) = false := by
      cases hp : packet.pitch with
      | finite q =>
        rw [hp] at hle
        simp only [CFloat.fabs, CFloat.le, decide_eq_true_eq] at hle
        simp only [CFloat.fabs, CFloat.gt, decide_eq_false_iff_not, not_lt]
        exact hle
      | inf negative => rw [hp] at hle; simp [CFloat.fabs, CFloat.le] at hle
      | nan => rfl
    simp [hw, hgt]
  · intro q hp hq15
    simp [hw, hp, CFloat.fabs, CFloat.gt, hq15]
  · intro q hp hq15
    simp [hw, hp, CFloat.fabs, CFloat.gt, not_lt.mpr hq15]

/-- Scenario 1 of the specification for C2: pitch 20 degrees, hydration not due, a packet
in the slot: the header becomes Slouch. -/
theorem update_loop_pitch_classification_witness :
    (update_loop board1kHz 4000000 freshPitch20).label_posture_status = .Slouch :=
  (update_loop_pitch_classification board1kHz 4000000 freshPitch20 (packetOfPitch 20) rfl rfl).1
    (by simp [packetOfPitch, CFloat.fabs, CFloat.gt]; norm_num)

/-! ## Link loss and recovery -/

/-- C3: on a tick of `update_loop` that finds the slot empty, if the elapsed tick count
`xTaskGetTickCount() - last_packet_tick` exceeds `pdMS_TO_TICKS(3000)` the header is set
to Searching, the link icon turns grey and the posture dot is moved back to offset 0,
whatever the last pitch and the hydration flag are; if the elapsed tick count is at most
`pdMS_TO_TICKS(3000)` the tick writes none of the three.  In both cases the stamp and the
last pitch are kept.  As long as `3000 * configTICK_RATE_HZ` fits 32 bits, the elapsed
tick count exceeds `pdMS_TO_TICKS(3000)` exactly when it stands for more than 3000 ms. -/
theorem update_loop_timeout (b : Board) (tickCount : Nat) (s : Receiver)
    (hq : s.posture_queue = none) :
    (u32_sub (xTaskGetTickCount tickCount) s.last_packet_tick
          > pdMS_TO_TICKS b.configTICK_RATE_HZ CONNECTION_TIMEOUT_MS →
        (update_loop b tickCount s).label_posture_status = .Searching ∧
        (update_loop b tickCount s).dot_y = 0 ∧
        (update_loop b tickCount s).wifi_icon_color = .TEXT_GRAY) ∧
      (u32_sub (xTaskGetTickCount tickCount) s.last_packet_tick
          ≤ pdMS_TO_TICKS b.configTICK_RATE_HZ CONNECTION_TIMEOUT_MS →
        (update_loop b tickCount s).label_posture_status = s.label_posture_status ∧
        (update_loop b tickCount s).dot_y = s.dot_y ∧
        (update_loop b tickCount s).wifi_icon_color = s.wifi_icon_color) ∧
      (update_loop b tickCount s).last_packet_tick = s.last_packet_tick ∧
      (update_loop b tickCount s).current_pitch = s.current_pitch ∧
      (3000 * b.configTICK_RATE_HZ < 2 ^ 32 →
        (u32_sub (xTaskGetTickCount tickCount) s.last_packet_tick
            > pdMS_TO_TICKS b.configTICK_RATE_HZ CONNECTION_TIMEOUT_MS ↔
          3000 * b.configTICK_RATE_HZ
            < 1000 * u32_sub (xTaskGetTickCount tickCount) s.last_packet_tick)) := by
  rw [update_loop_of_none b tickCount s hq]
  refine ⟨?_, ?_, ?_, ?_, ?_⟩
  · intro h
    rw [if_pos h]
    exact ⟨rfl, rfl, rfl⟩
  · intro h
    rw [if_neg (not_lt.mpr h)]
    exact ⟨rfl, rfl, rfl⟩
  · split <;> rfl
  · split <;> rfl
  · intro h
    rw [pdMS_TO_TICKS_timeout _ h]
    constructor <;> intro h' <;> omega

/-- Scenario 3 of the specification for C3, at 1000 ticks per second: the last packet
was drained at tick 4000000 and the slot is empty at tick 4003001, that is 3001 ms later;
the header becomes Searching and the dot is centred although the last pitch was 20
degrees and hydration is due.  At tick 4003000 the header is still the slouch header. -/
theorem update_loop_timeout_witness :
    ((update_loop board1kHz 4003001 silentAfterSlouch).label_posture_status = .Searching ∧
        (update_loop board1kHz 4003001 silentAfterSlouch).dot_y = 0 ∧
        (update_loop board1kHz 4003001 silentAfterSlouch).wifi_icon_color = .TEXT_GRAY) ∧
      ((update_loop board1kHz 4003000 silentAfterSlouch).label_posture_status = .Slouch ∧
        (update_loop board1kHz 4003000 silentAfterSlouch).dot_y = 30 ∧
        (update_loop board1kHz 4003000 silentAfterSlouch).wifi_icon_color = .GREEN) :=
  ⟨(update_loop_timeout board1kHz 4003001 silentAfterSlouch rfl).1 (by decide),
    (update_loop_timeout board1kHz 4003000 silentAfterSlouch rfl).2.1 (by decide)⟩

/-- C4: recovery from link loss takes one tick.  From any receiver state whose header is
Searching, once `on_data_recv` has accepted a telemetry buffer the next tick of
`update_loop` stamps `last_packet_tick` with the current tick count, turns the link icon
green, empties the slot and sets the header to Hydrate, Slouch or Good (so not to
Searching); no earlier packet and no waiting time is required. -/
theorem update_loop_recovers (b : Board) (tickCount : Nat) (s : Receiver)
    (incomingData : posture_packet_t) (len : Int)
    (hs : s.label_posture_status = .Searching) (hlen : len = sizeof_posture_packet_t) :
    (update_loop b tickCount (on_data_recv incomingData len s)).last_packet_tick
        = xTaskGetTickCount tickCount ∧
      ((update_loop b tickCount (on_data_recv incomingData len s)).label_posture_status
          = .Hydrate ∨
        (update_loop b tickCount (on_data_recv incomingData len s)).label_posture_status
          = .Slouch ∨
        (update_loop b tickCount (on_data_recv incomingData len s)).label_posture_status
          = .Good) ∧
      (update_loop b tickCount (on_data_recv incomingData len s)).label_posture_status
        ≠ s.label_posture_status ∧
      (update_loop b tickCount (on_data_recv incomingData len s)).wifi_icon_color = .GREEN ∧
      (update_loop b tickCount (on_data_recv incomingData len s)).posture_queue = none := by
  have hq : (on_data_recv incomingData len s).posture_queue = some incomingData := by
    simp [on_data_recv, hlen, xQueueOverwrite]
  rw [update_loop_of_some b tickCount _ incomingData hq, hs]
  by_cases hw : (update_timers (on_data_recv incomingData len s)).water_alert_active = true
  · simp [hw]
  · by_cases hp : (CFloat.fabs incomingData.pitch).gt (.finite 15) = true
    · simp [hw, hp]
    · simp [hw, hp]

/-- Recovery for C4 at a concrete input: the last packet was drained at tick 4000000, a
packet of pitch 5 arrives 15 minutes later and the tick at 4900000 shows it. -/
theorem update_loop_recovers_witness :
    (update_loop board1kHz 4900000
        (on_data_recv (packetOfPitch 5) 12 searchingAfterSlouch)).last_packet_tick = 4900000 ∧
      (update_loop board1kHz 4900000
        (on_data_recv (packetOfPitch 5) 12 searchingAfterSlouch)).label_posture_status
        ≠ .Searching :=
  ⟨(update_loop_recovers board1kHz 4900000 searchingAfterSlouch (packetOfPitch 5) 12 rfl rfl).1,
    (update_loop_recovers board1kHz 4900000 searchingAfterSlouch (packetOfPitch 5) 12 rfl rfl).2.2.1⟩

/-! ## What the header depends on -/

/-- C5, refutation of the claim as stated.  `shownGood` and `shownHydrateThenDrank` agree
on the slot (empty), on `last_packet_tick`, on the last pitch and on the hydration flag
(false), and differ in the header.  The tick at 4000030, 30 ms after the last packet, finds
no packet and no timeout and leaves the two headers different: Good and Hydrate.
Moreover `freshPitch5` and `almostThirstyPitch5` agree on slot, link and hydration flag
before the tick, yet the tick that drains their packet shows Good and Hydrate, because
the timer update of that very tick raises the flag in the second. -/
theorem update_loop_status_has_memory :
    (shownGood.posture_queue = shownHydrateThenDrank.posture_queue ∧
        shownGood.last_packet_tick = shownHydrateThenDrank.last_packet_tick ∧
        shownGood.current_pitch = shownHydrateThenDrank.current_pitch ∧
        shownGood.water_alert_active = shownHydrateThenDrank.water_alert_active ∧
        (update_loop board1kHz 4000030 shownGood).label_posture_status = .Good ∧
        (update_loop board1kHz 4000030 shownHydrateThenDrank).label_posture_status = .Hydrate) ∧
      (freshPitch5.posture_queue = almostThirstyPitch5.posture_queue ∧
        freshPitch5.last_packet_tick = almostThirstyPitch5.last_packet_tick ∧
        freshPitch5.current_pitch = almostThirstyPitch5.current_pitch ∧
        freshPitch5.water_alert_active = almostThirstyPitch5.water_alert_active ∧
        (update_loop board1kHz 4000000 freshPitch5).label_posture_status = .Good ∧
        (update_loop board1kHz 4000000 almostThirstyPitch5).label_posture_status = .Hydrate) := by
  have hGood : shownGood.label_posture_status = .Good := by
    unfold shownGood
    rw [update_loop_of_some board1kHz 4000000 freshPitch5 (packetOfPitch 5) rfl]
    simp [update_timers, freshPitch5, linkDown, Receiver.init, packetOfPitch, CFloat.fabs, CFloat.gt,
      wrap32, WATER_REMINDER_THRESHOLD]
    norm_num
  have hHyd : shownHydrateThenDrank.label_posture_status = .Hydrate := by
    unfold shownHydrateThenDrank
    rw [update_loop_of_some board1kHz 4000000 thirstyPitch5 (packetOfPitch 5) rfl]
    rfl
  refine ⟨⟨rfl, rfl, rfl, rfl, ?_, ?_⟩, ⟨rfl, rfl, rfl, rfl, ?_, ?_⟩⟩
  · rw [update_loop_of_none board1kHz 4000030 shownGood rfl, if_neg (by decide)]
    exact hGood
  · rw [update_loop_of_none board1kHz 4000030 shownHydrateThenDrank rfl, if_neg (by decide)]
    exact hHyd
  · rw [update_loop_of_some board1kHz 4000000 freshPitch5 (packetOfPitch 5) rfl]
    simp [update_timers, freshPitch5, linkDown, Receiver.init, packetOfPitch, CFloat.fabs, CFloat.gt,
      wrap32, WATER_REMINDER_THRESHOLD]
    norm_num
  · rw [update_loop_of_some board1kHz 4000000 almostThirstyPitch5 (packetOfPitch 5) rfl]
    rfl

/-- C5, amended.  Take two receiver states that agree on the slot content, on
`last_packet_tick` and on the hydration flag as it stands after the timer update of the
tick, and that may differ in everything else, the header included.  If the tick of
`update_loop` drains a packet or finds the timeout elapsed, both end with the same
header.  If the tick finds the slot empty and the timeout not elapsed, each state keeps
the header it had. -/
theorem update_loop_status_of_inputs (b : Board) (tickCount : Nat) (s₁ s₂ : Receiver)
    (hq : s₁.posture_queue = s₂.posture_queue)
    (hl : s₁.last_packet_tick = s₂.last_packet_tick)
    (hw : (update_timers s₁).water_alert_active = (update_timers s₂).water_alert_active) :
    ((s₁.posture_queue ≠ none ∨
          u32_sub (xTaskGetTickCount tickCount) s₁.last_packet_tick
            > pdMS_TO_TICKS b.configTICK_RATE_HZ CONNECTION_TIMEOUT_MS) →
        (update_loop b tickCount s₁).label_posture_status
          = (update_loop b tickCount s₂).label_posture_status) ∧
      (s₁.posture_queue = none →
        u32_sub (xTaskGetTickCount tickCount) s₁.last_packet_tick
          ≤ pdMS_TO_TICKS b.configTICK_RATE_HZ CONNECTION_TIMEOUT_MS →
        (update_loop b tickCount s₁).label_posture_status = s₁.label_posture_status ∧
        (update_loop b tickCount s₂).label_posture_status = s₂.label_posture_status) := by
  constructor
  · intro h
    cases hq₁ : s₁.posture_queue with
    | some packet =>
      rw [update_loop_of_some b tickCount s₁ packet hq₁,
        update_loop_of_some b tickCount s₂ packet (hq ▸ hq₁), hw]
      by_cases hw₂ : (update_timers s₂).water_alert_active = true
      · simp [hw₂]
      · by_cases hp : (CFloat.fabs packet.pitch).gt (.finite 15) = true
        · simp [hw₂, hp]
        · simp [hw₂, hp]
    | none =>
      have hto : u32_sub (xTaskGetTickCount tickCount) s₁.last_packet_tick
          > pdMS_TO_TICKS b.configTICK_RATE_HZ CONNECTION_TIMEOUT_MS := by
        rcases h with h | h
        · exact absurd hq₁ h
        · exact h
      rw [update_loop_of_none b tickCount s₁ hq₁,
        update_loop_of_none b tickCount s₂ (hq ▸ hq₁), if_pos hto, if_pos (hl ▸ hto)]
  · intro hq₁ hto
    rw [update_loop_of_none b tickCount s₁ hq₁,
      update_loop_of_none b tickCount s₂ (hq ▸ hq₁), if_neg (not_lt.mpr hto),
      if_neg (not_lt.mpr (hl ▸ hto))]
    exact ⟨rfl, rfl⟩

/-- The amended C5 at a concrete input: a state that shows Slouch and a state that shows
Searching, each with a packet of pitch 5 in the slot, both show Good after the tick. -/
theorem update_loop_status_of_inputs_witness :
    (update_loop board1kHz 4900000
        { silentAfterSlouch with
          posture_queue := some (packetOfPitch 5)
          water_timer_ticks := 0
          water_alert_active := false }).label_posture_status
      = (update_loop board1kHz 4900000
        { searchingAfterSlouch with
          posture_queue := some (packetOfPitch 5)
          water_timer_ticks := 7
          water_alert_active := false }).label_posture_status :=
  (update_loop_status_of_inputs board1kHz 4900000
      { silentAfterSlouch with
        posture_queue := some (packetOfPitch 5)
        water_timer_ticks := 0
        water_alert_active := false }
      { searchingAfterSlouch with
        posture_queue := some (packetOfPitch 5)
        water_timer_ticks := 7
        water_alert_active := false }
      rfl rfl rfl).1 (Or.inl (by simp))

/-! ## Water timer -/

/-- C6, refutation of the claim as stated: the tick on which `water_timer_ticks` reaches
the threshold 120000 exactly leaves `water_alert_active` false. -/
theorem water_alert_not_at_threshold :
    oneTickBeforeThreshold.water_alert_active = false ∧
      (update_loop board1kHz 4000000 oneTickBeforeThreshold).water_timer_ticks = 120000 ∧
      (update_loop board1kHz 4000000 oneTickBeforeThreshold).water_alert_active = false := by
  refine ⟨rfl, ?_, ?_⟩
  · rw [update_loop_water_timer_ticks]; rfl
  · rw [update_loop_water_alert_active]; rfl

/-- C6, amended.  Start from the state right after start-up or right after a drink
event and let any events other than a drink follow, `n` of them timer ticks.  Then
`water_timer_ticks` is `n`, and `water_alert_active` is true exactly when `n` exceeds
120000.  So the flag is still false on the tick where the counter reaches 120000 and
changes from false to true on the next tick, where the counter becomes 120001. -/
theorem water_alert_after_drink (b : Board) (s₀ : Receiver) (es : List Event)
    (h₀ : s₀ = Receiver.init ∨ ∃ s, s₀ = btn_water_cb .SHORT_CLICKED s)
    (hnd : noDrink es = true) (hn : (countTicks es : Int) ≤ INT_MAX) :
    (run b es s₀).water_timer_ticks = countTicks es ∧
      ((run b es s₀).water_alert_active = true ↔ 120000 < countTicks es) ∧
      (countTicks es = 120000 → ∀ tickCount,
        (run b es s₀).water_alert_active = false ∧
        (update_loop b tickCount (run b es s₀)).water_timer_ticks = 120001 ∧
        (update_loop b tickCount (run b es s₀)).water_alert_active = true) := by
  have hz : s₀.water_timer_ticks = 0 ∧ s₀.water_alert_active = false := by
    rcases h₀ with h | ⟨s, h⟩ <;> subst h <;> exact ⟨rfl, rfl⟩
  have hrun := run_noDrink_timer b es s₀ hnd (by rw [hz.1]; norm_num)
    (by rw [hz.1]; simpa using hn) (by rw [hz.1, hz.2]; simp [WATER_REMINDER_THRESHOLD])
  rw [hz.1] at hrun
  simp only [zero_add, WATER_REMINDER_THRESHOLD] at hrun
  refine ⟨hrun.1, ?_, ?_⟩
  · rw [hrun.2]; norm_cast
  · intro hc tickCount
    have hstep := update_loop_water_step b tickCount (run b es s₀)
      (by rw [hrun.1, hc]; norm_num) (by rw [hrun.1, hc]; unfold INT_MAX; norm_num)
    refine ⟨?_, ?_, ?_⟩
    · cases hf : (run b es s₀).water_alert_active with
      | false => rfl
      | true =>
        have := hrun.2.mp hf
        rw [hc] at this
        norm_num at this
    · rw [hstep.1, hrun.1, hc]; norm_num
    · rw [hstep.2, hrun.1, hc]
      right
      unfold WATER_REMINDER_THRESHOLD
      norm_num

/-- The amended C6 at a concrete input: two ticks after start-up, with a rejected buffer
and a long press in between, the counter is 2 and the flag is false. -/
theorem water_alert_after_drink_witness :
    (run board1kHz twoTicksNoDrink Receiver.init).water_timer_ticks = 2 ∧
      ¬ (run board1kHz twoTicksNoDrink Receiver.init).water_alert_active = true :=
  ⟨(water_alert_after_drink board1kHz Receiver.init twoTicksNoDrink (Or.inl rfl) rfl
      (by decide)).1,
    fun h => absurd ((water_alert_after_drink board1kHz Receiver.init twoTicksNoDrink
      (Or.inl rfl) rfl (by decide)).2.1.mp h) (by decide)⟩

/-- C7: in every state reached from the initial state by any sequence of ticks, button
events and received buffers, `water_count` lies in `[0, 8]`; there a drink event (short
click) gives `min (old + 1) 8`, which is never below the old count, a reset event (long
press) gives exactly 0, and a tick leaves the count alone.  Scenario 4: from a count
of 7 a drink event gives 8 and a further drink event leaves 8. -/
theorem water_count_saturates (b : Board) (es : List Event) :
    (0 ≤ (run b es Receiver.init).water_count ∧ (run b es Receiver.init).water_count ≤ 8) ∧
      (btn_water_cb .SHORT_CLICKED (run b es Receiver.init)).water_count
        = min ((run b es Receiver.init).water_count + 1) 8 ∧
      (run b es Receiver.init).water_count
        ≤ (btn_water_cb .SHORT_CLICKED (run b es Receiver.init)).water_count ∧
      (btn_water_cb .LONG_PRESSED (run b es Receiver.init)).water_count = 0 ∧
      (∀ tickCount, (update_loop b tickCount (run b es Receiver.init)).water_count
        = (run b es Receiver.init).water_count) ∧
      (∀ s : Receiver, s.water_count = 7 →
        (btn_water_cb .SHORT_CLICKED s).water_count = 8 ∧
        (btn_water_cb .SHORT_CLICKED (btn_water_cb .SHORT_CLICKED s)).water_count = 8) := by
  have hr := run_water_count_range b es Receiver.init (le_refl (0 : Int)) (by decide)
  have hd := btn_water_cb_short_water_count _ hr.1 hr.2
  refine ⟨hr, hd, ?_, rfl, fun tickCount => update_loop_water_count b tickCount _, ?_⟩
  · rw [hd]; omega
  · intro s hs
    have h1 : (btn_water_cb .SHORT_CLICKED s).water_count = 8 := by
      rw [btn_water_cb_short_water_count s (by omega) (by omega), hs]; rfl
    refine ⟨h1, ?_⟩
    rw [btn_water_cb_short_water_count _ (by omega) (by omega), h1]; rfl

/-- C8: in every state reached from the initial state by ticks, button events and
received buffers, none of the ticks overflowing the counter, `water_alert_active` is true
exactly when `water_timer_ticks` exceeds the threshold.  Once true, the flag stays true
over every continuation without a drink event.  A drink event sets the counter to 0 and
the flag to false; a reset event changes neither. -/
theorem water_alert_iff_over_threshold (b : Board) (es : List Event)
    (hr : ticksInRange b es Receiver.init = true) :
    ((run b es Receiver.init).water_alert_active = true ↔
        WATER_REMINDER_THRESHOLD < (run b es Receiver.init).water_timer_ticks) ∧
      ((run b es Receiver.init).water_alert_active = true →
        ∀ es₂, noDrink es₂ = true →
          (run b es₂ (run b es Receiver.init)).water_alert_active = true) ∧
      ((btn_water_cb .SHORT_CLICKED (run b es Receiver.init)).water_timer_ticks = 0 ∧
        (btn_water_cb .SHORT_CLICKED (run b es Receiver.init)).water_alert_active = false) ∧
      ((btn_water_cb .LONG_PRESSED (run b es Receiver.init)).water_timer_ticks
          = (run b es Receiver.init).water_timer_ticks ∧
        (btn_water_cb .LONG_PRESSED (run b es Receiver.init)).water_alert_active
          = (run b es Receiver.init).water_alert_active) := by
  have hinv := run_timer_invariant b es Receiver.init hr (le_refl (0 : Int))
    (by simp [Receiver.init, WATER_REMINDER_THRESHOLD])
  exact ⟨hinv.2, fun h es₂ hnd => run_noDrink_keeps_alert b es₂ _ hnd h, ⟨rfl, rfl⟩, ⟨rfl, rfl⟩⟩

/-- C8 at a concrete execution: after tick, drink, tick, long press the flag agrees
with the threshold test on the counter. -/
theorem water_alert_iff_over_threshold_witness :
    ((run board1kHz tickDrinkTickReset Receiver.init).water_alert_active = true ↔
      WATER_REMINDER_THRESHOLD
        < (run board1kHz tickDrinkTickReset Receiver.init).water_timer_ticks) :=
  (water_alert_iff_over_threshold board1kHz tickDrinkTickReset rfl).1

/-! ## Ingestion slot -/

/-- C9: the slot is latest-value-wins.  After any non-empty run of accepted telemetry
buffers, delivered to `on_data_recv` from any receiver state, the slot holds the last
buffer of the run; the drain of the next `update_loop` returns that packet, consumes its
pitch, stamps `last_packet_tick` and leaves the slot empty; a second drain with no
buffer in between returns nothing, and the second tick keeps pitch and stamp. -/
theorem slot_latest_value_wins (b : Board) (tickCount tickCount₂ : Nat) (s : Receiver)
    (packets : List posture_packet_t) (h : packets ≠ []) :
    xQueueReceive (deliver packets s).posture_queue = (some (packets.getLast h), none) ∧
      (update_loop b tickCount (deliver packets s)).current_pitch
        = (packets.getLast h).pitch ∧
      (update_loop b tickCount (deliver packets s)).last_packet_tick
        = xTaskGetTickCount tickCount ∧
      xQueueReceive (update_loop b tickCount (deliver packets s)).posture_queue
        = (none, none) ∧
      (update_loop b tickCount₂ (update_loop b tickCount (deliver packets s))).current_pitch
        = (packets.getLast h).pitch ∧
      (update_loop b tickCount₂ (update_loop b tickCount (deliver packets s))).last_packet_tick
        = xTaskGetTickCount tickCount := by
  have hq := deliver_posture_queue packets s h
  have hloop := update_loop_of_some b tickCount (deliver packets s) (packets.getLast h) hq
  have hp : (update_loop b tickCount (deliver packets s)).current_pitch
      = (packets.getLast h).pitch := by
    rw [hloop]; dsimp only
    split
    · rfl
    · split <;> rfl
  have hl : (update_loop b tickCount (deliver packets s)).last_packet_tick
      = xTaskGetTickCount tickCount := by
    rw [hloop]; dsimp only
    split
    · rfl
    · split <;> rfl
  have he : (update_loop b tickCount (deliver packets s)).posture_queue = none := by
    rw [hloop]; dsimp only
    split
    · rfl
    · split <;> rfl
  have h₂ := update_loop_of_none_keeps b tickCount₂ _ he
  refine ⟨by rw [hq]; rfl, hp, hl, by rw [he]; rfl, ?_, ?_⟩
  · rw [h₂.1, hp]
  · rw [h₂.2, hl]

/-- C9 at a concrete input: three buffers with pitches 5, 20 and 7 arrive between two
ticks; the drain returns the third. -/
theorem slot_latest_value_wins_witness :
    xQueueReceive
        (deliver [packetOfPitch 5, packetOfPitch 20, packetOfPitch 7]
          Receiver.init).posture_queue
      = (some (packetOfPitch 7), none) :=
  (slot_latest_value_wins board1kHz 30 60 Receiver.init
    [packetOfPitch 5, packetOfPitch 20, packetOfPitch 7] (by simp)).1

/-! ## Length check of received buffers -/

/-- C10: `on_data_recv` overwrites the slot with the received record when `len` is 12
and changes nothing else; for every other `len` it returns the state unchanged.
`on_recv` returns the sender state unchanged for every `len` other than 2, so a change
of `trigger_calibration` or `vibration_enabled` implies `len = 2`.  Both callbacks are
total functions without a result value: a rejected buffer raises no error. -/
theorem length_check (incomingData : posture_packet_t) (data : command_packet_t)
    (len : Int) (s : Receiver) (t : Sender) :
    (len = 12 →
        on_data_recv incomingData len s = { s with posture_queue := some incomingData }) ∧
      (len ≠ 12 → on_data_recv incomingData len s = s) ∧
      ((on_data_recv incomingData len s).posture_queue ≠ s.posture_queue → len = 12) ∧
      (len ≠ 2 → on_recv data len t = t) ∧
      ((on_recv data len t).trigger_calibration ≠ t.trigger_calibration ∨
          (on_recv data len t).vibration_enabled ≠ t.vibration_enabled → len = 2) := by
  have hr : len ≠ 12 → on_data_recv incomingData len s = s := by
    intro h
    simp [on_data_recv, sizeof_posture_packet_t, h]
  have hs : len ≠ 2 → on_recv data len t = t := by
    intro h
    simp [on_recv, sizeof_command_packet_t, h]
  refine ⟨?_, hr, ?_, hs, ?_⟩
  · intro h
    simp [on_data_recv, sizeof_posture_packet_t, h, xQueueOverwrite]
  · intro h
    by_contra hne
    exact h (by rw [hr hne])
  · intro h
    by_contra hne
    rw [hs hne] at h
    simp at h

/-! ## Command round trip -/

/-- C12: `send_calibration_command` emits the two-byte record (command 1, value 0),
and `send_vibration_setting b` emits (command 2, value 1 if `b` else 0).  Fed to the
sender's `on_recv`, the first sets `trigger_calibration` and leaves `vibration_enabled`
as it is; the second sets `vibration_enabled` to `b` and leaves `trigger_calibration`
as it is. -/
theorem command_round_trip (t : Sender) (enabled : Bool) :
    send_calibration_command = ({ command_id := 1, value := 0 }, 2) ∧
      send_vibration_setting enabled
        = ({ command_id := 2, value := if enabled then 1 else 0 }, 2) ∧
      (on_recv send_calibration_command.1 send_calibration_command.2 t).trigger_calibration
        = true ∧
      (on_recv send_calibration_command.1 send_calibration_command.2 t).vibration_enabled
        = t.vibration_enabled ∧
      (on_recv (send_vibration_setting enabled).1
          (send_vibration_setting enabled).2 t).vibration_enabled = enabled ∧
      (on_recv (send_vibration_setting enabled).1
          (send_vibration_setting enabled).2 t).trigger_calibration
        = t.trigger_calibration := by
  refine ⟨rfl, rfl, rfl, rfl, ?_, rfl⟩
  cases enabled <;> rfl

/-! ## Countdown text -/

theorem excessBits_le : ∀ (fuel n k : Nat), n < 2 ^ (53 + k) → excessBits fuel n ≤ k
  | 0, _, _, _ => Nat.zero_le _
  | fuel + 1, n, k, h => by
    unfold excessBits
    split
    · exact Nat.zero_le _
    · rename_i hn
      cases k with
      | zero => exact absurd h hn
      | succ k =>
        have h2 : n / 2 < 2 ^ (53 + k) := by
          rw [Nat.div_lt_iff_lt_mul (by norm_num)]
          calc n < 2 ^ (53 + (k + 1)) := h
            _ = 2 ^ (53 + k) * 2 := by rw [← Nat.add_assoc, Nat.pow_succ]
        exact Nat.succ_le_succ (excessBits_le fuel (n / 2) k h2)

/-- Below `2 ^ 70` at most 17 bits are rounded away, so rounding moves a number by at
most `2 ^ 17`. -/
theorem round53_near (n : Nat) (h : n < 2 ^ 70) :
    n ≤ round53 n + 2 ^ 17 ∧ round53 n ≤ n + 2 ^ 17 := by
  have hs : excessBits 64 n ≤ 17 := excessBits_le 64 n 17 h
  have hp : 2 ^ excessBits 64 n ≤ 2 ^ 17 := Nat.pow_le_pow_right (by norm_num) hs
  have hdm := Nat.div_add_mod n (2 ^ excessBits 64 n)
  have hlt := Nat.mod_lt n (Nat.two_pow_pos (excessBits 64 n))
  unfold round53
  dsimp only
  rw [Nat.mul_comm] at hdm
  split
  · rw [Nat.add_mul]
    omega
  · omega

/-- Whole multiples of 100 ticks, where the exact product `3 * k` is an integer and
the double `0.03` lies just below 3/100: the rounded product is the integer. -/
theorem total_seconds_of_hundreds : ∀ k < 1201, total_seconds_of (100 * k) = 3 * k := by
  decide!

/-- For every `remaining` up to the threshold, `(int)(remaining * 0.03)` is the floor
of `remaining * 3 / 100`. -/
theorem total_seconds_of_eq (r : Nat) (h : r ≤ 120000) :
    total_seconds_of r = r * 3 / 100 := by
  by_cases hj : r * 3 % 100 = 0
  · obtain ⟨k, rfl⟩ : ∃ k, r = 100 * k := ⟨r / 100, by omega⟩
    rw [total_seconds_of_hundreds k (by omega)]
    omega
  · have hn := round53_near (r * DOUBLE_0_03_NUM) (by
      unfold DOUBLE_0_03_NUM
      norm_num
      omega)
    unfold total_seconds_of
    unfold DOUBLE_0_03_NUM at hn ⊢
    norm_num at hn ⊢
    omega

/-- The printed pair in terms of integer arithmetic, for a counter in `[0, INT_MAX]`. -/
theorem water_timer_label_eq (ticks : Int) (h0 : 0 ≤ ticks) (h1 : ticks ≤ INT_MAX) :
    water_timer_label ticks =
      (max 0 (WATER_REMINDER_THRESHOLD - ticks) * 3 / 100 / 60,
        max 0 (WATER_REMINDER_THRESHOLD - ticks) * 3 / 100 % 60) := by
  unfold INT_MAX at h1
  unfold water_timer_label
  rw [wrap32_of_range _ (by unfold WATER_REMINDER_THRESHOLD; omega)
    (by unfold WATER_REMINDER_THRESHOLD; omega)]
  unfold WATER_REMINDER_THRESHOLD
  dsimp only
  by_cases hneg : 120000 - ticks < 0
  · rw [if_pos hneg, max_eq_left (by omega)]
    rfl
  · rw [if_neg hneg, max_eq_right (by omega)]
    obtain ⟨r, hr⟩ : ∃ r : Nat, 120000 - ticks = (r : Int) := ⟨(120000 - ticks).toNat, by omega⟩
    rw [hr, Int.toNat_ofNat, total_seconds_of_eq r (by omega),
      Int.tdiv_eq_ediv (by omega) (by norm_num), Int.tmod_eq_emod (by omega) (by norm_num)]
    push_cast
    rfl

/-- C13: for every value `ticks` in `[0, INT_MAX]` that `water_timer_ticks` has after the
increment of a tick, the pair `(mins, secs)` printed by `update_loop` satisfies
`mins * 60 + secs = floor (max 0 (120000 - ticks) * 3 / 100)` with `0 <= secs <= 59` and
`0 <= mins <= 60`; it is `(0, 0)` as soon as `ticks` exceeds the threshold.  In every
execution from the initial state whose ticks do not overflow the counter, the pair
printed by a tick is computed from the counter that tick leaves behind, and it is
`(0, 0)` whenever `water_alert_active` is true after that tick. -/
theorem water_timer_label_spec (ticks : Int) (h0 : 0 ≤ ticks) (h1 : ticks ≤ INT_MAX) :
    (water_timer_label ticks).1 * 60 + (water_timer_label ticks).2
        = max 0 (WATER_REMINDER_THRESHOLD - ticks) * 3 / 100 ∧
      (0 ≤ (water_timer_label ticks).2 ∧ (water_timer_label ticks).2 ≤ 59) ∧
      (0 ≤ (water_timer_label ticks).1 ∧ (water_timer_label ticks).1 ≤ 60) ∧
      (WATER_REMINDER_THRESHOLD < ticks → water_timer_label ticks = (0, 0)) ∧
      (∀ (b : Board) (es : List Event) (tickCount : Nat),
        ticksInRange b es Receiver.init = true →
        (run b es Receiver.init).water_timer_ticks < INT_MAX →
        update_loop_timer_label (run b es Receiver.init)
            = water_timer_label
              (update_loop b tickCount (run b es Receiver.init)).water_timer_ticks ∧
          0 ≤ (update_loop b tickCount (run b es Receiver.init)).water_timer_ticks ∧
          ((update_loop b tickCount (run b es Receiver.init)).water_alert_active = true →
            update_loop_timer_label (run b es Receiver.init) = (0, 0))) := by
  have hover : ∀ x : Int, 0 ≤ x → x ≤ INT_MAX → WATER_REMINDER_THRESHOLD < x →
      water_timer_label x = (0, 0) := by
    intro x hx0 hx1 hx
    rw [water_timer_label_eq x hx0 hx1, max_eq_left (by omega)]
    rfl
  rw [water_timer_label_eq ticks h0 h1]
  unfold INT_MAX at h1
  unfold WATER_REMINDER_THRESHOLD
  refine ⟨?_, ⟨?_, ?_⟩, ⟨?_, ?_⟩, ?_, ?_⟩
  · dsimp only
    omega
  · dsimp only
    omega
  · dsimp only
    omega
  · dsimp only
    have : (0 : Int) ≤ max 0 (120000 - ticks) := le_max_left _ _
    omega
  · dsimp only
    have : max 0 (120000 - ticks) ≤ 120000 := max_le (by norm_num) (by omega)
    omega
  · intro h
    rw [max_eq_left (by omega)]
    rfl
  · intro b es tickCount hr hlast
    have hinv := run_timer_invariant b es Receiver.init hr (le_refl (0 : Int))
      (by simp [Receiver.init, WATER_REMINDER_THRESHOLD])
    have hstep := update_loop_water_step b tickCount (run b es Receiver.init)
      (by have := hinv.1; omega) hlast
    have hlabel : update_loop_timer_label (run b es Receiver.init)
        = water_timer_label
          (update_loop b tickCount (run b es Receiver.init)).water_timer_ticks := by
      rw [update_loop_water_timer_ticks]
      rfl
    refine ⟨hlabel, by rw [hstep.1]; have := hinv.1; omega, ?_⟩
    intro ha
    rw [hlabel, hstep.1]
    have hthr : WATER_REMINDER_THRESHOLD
        < (run b es Receiver.init).water_timer_ticks + 1 := by
      rcases hstep.2.mp ha with h | h
      · have := hinv.2.mp h
        omega
      · exact h
    exact hover _ (by have := hinv.1; omega) (by unfold INT_MAX at hlast ⊢; omega) hthr

/-- C13 at a concrete input: with 60000 ticks on the counter the text is 30:00. -/
theorem water_timer_label_spec_witness :
    (water_timer_label 60000).1 * 60 + (water_timer_label 60000).2
        = max 0 (WATER_REMINDER_THRESHOLD - 60000) * 3 / 100 ∧
      (0 ≤ (water_timer_label 60000).2 ∧ (water_timer_label 60000).2 ≤ 59) :=
  ⟨(water_timer_label_spec 60000 (by decide) (by decide)).1,
    (water_timer_label_spec 60000 (by decide) (by decide)).2.1⟩

/-! ## Sender loop: unfolding and frame lemmas -/

/-- What the data part of an iteration leaves behind. -/
theorem report_spec (b : SenderBoard) (raw : CFloat × CFloat) (t : SenderLoop) :
    (report b raw t).sent
        = t.sent ++ [{ pitch := b.float_sub raw.1 t.globals.offset_pitch
                       roll := b.float_sub raw.2 t.globals.offset_roll
                       battery_level := 95 }] ∧
      (report b raw t).packet
        = { pitch := b.float_sub raw.1 t.globals.offset_pitch
            roll := b.float_sub raw.2 t.globals.offset_roll
            battery_level := 95 } ∧
      (report b raw t).globals.offset_pitch = t.globals.offset_pitch ∧
      (report b raw t).globals.offset_roll = t.globals.offset_roll ∧
      (report b raw t).globals.trigger_calibration = t.globals.trigger_calibration ∧
      (report b raw t).globals.vibration_enabled = t.globals.vibration_enabled := by
  unfold report
  dsimp only
  split <;> exact ⟨rfl, rfl, rfl, rfl, rfl, rfl⟩

/-- What `i` units of the countdown leave behind: `i` copies of the packet in the log,
everything but the LED unchanged. -/
theorem keep_alive_countdown_spec :
    ∀ (i : Nat) (t : SenderLoop),
      (keep_alive_countdown i t).sent = t.sent ++ List.replicate i t.packet ∧
        (keep_alive_countdown i t).packet = t.packet ∧
        (keep_alive_countdown i t).globals.offset_pitch = t.globals.offset_pitch ∧
        (keep_alive_countdown i t).globals.offset_roll = t.globals.offset_roll ∧
        (keep_alive_countdown i t).globals.trigger_calibration
          = t.globals.trigger_calibration ∧
        (keep_alive_countdown i t).globals.vibration_enabled = t.globals.vibration_enabled
  | 0, t => by simp [keep_alive_countdown]
  | i + 1, t => by
    have ih := keep_alive_countdown_spec i
      { t with
        sent := t.sent ++ [t.packet]
        globals := { t.globals with led_level := 1 } }
    refine ⟨?_, ih.2.1, ih.2.2.1, ih.2.2.2.1, ih.2.2.2.2.1, ih.2.2.2.2.2⟩
    rw [keep_alive_countdown, ih.1, List.replicate_succ, List.append_assoc]
    rfl

theorem loop_iteration_of_not_enters (b : SenderBoard) (i : LoopInput) (t : SenderLoop)
    (h : enters_calibration t i = false) :
    loop_iteration b i t = report b (raw_reading i) t := by
  unfold loop_iteration
  simp [h]

theorem loop_iteration_of_enters (b : SenderBoard) (i : LoopInput) (t : SenderLoop)
    (h : enters_calibration t i = true) :
    loop_iteration b i t = report b (handshake i (raw_reading i) t).2
      (handshake i (raw_reading i) t).1 := by
  unfold loop_iteration
  simp [h]

/-- What the handshake leaves behind: three copies of the packet in the log, the locals
after the capture read in the offsets, the request flag cleared. -/
theorem handshake_spec (i : LoopInput) (raw : CFloat × CFloat) (t : SenderLoop) :
    (handshake i raw t).2 = read_mpu_data i.capture_transfer raw.1 raw.2 ∧
      (handshake i raw t).1.sent = t.sent ++ List.replicate 3 t.packet ∧
      (handshake i raw t).1.packet = t.packet ∧
      (handshake i raw t).1.globals.offset_pitch
        = (read_mpu_data i.capture_transfer raw.1 raw.2).1 ∧
      (handshake i raw t).1.globals.offset_roll
        = (read_mpu_data i.capture_transfer raw.1 raw.2).2 ∧
      (handshake i raw t).1.globals.trigger_calibration = false := by
  have hk := keep_alive_countdown_spec 3 { t with vib_motor_level := 0 }
  exact ⟨rfl, hk.1, hk.2.1, rfl, rfl, rfl⟩

theorem on_recv_offsets (data : command_packet_t) (len : Int) (t : Sender) :
    (on_recv data len t).offset_pitch = t.offset_pitch ∧
      (on_recv data len t).offset_roll = t.offset_roll := by
  unfold on_recv
  split
  · split
    · exact ⟨rfl, rfl⟩
    · split <;> exact ⟨rfl, rfl⟩
  · exact ⟨rfl, rfl⟩

/-- Along steps without handshake the offsets stay and every iteration adds one packet:
its reading minus the offsets. -/
theorem senderRun_noHandshake (b : SenderBoard) :
    ∀ (es : List SenderEvent) (t : SenderLoop), noHandshake b es t = true →
      (senderRun b es t).globals.offset_pitch = t.globals.offset_pitch ∧
        (senderRun b es t).globals.offset_roll = t.globals.offset_roll ∧
        (senderRun b es t).sent
          = t.sent ++ dataPackets b t.globals.offset_pitch t.globals.offset_roll es
  | [], t, _ => by simp [senderRun, dataPackets]
  | .iteration i :: es, t, h => by
    simp only [noHandshake, Bool.and_eq_true, Bool.not_eq_true'] at h
    have hit := loop_iteration_of_not_enters b i t h.1
    have hrep := report_spec b (raw_reading i) t
    have ih := senderRun_noHandshake b es (loop_iteration b i t) h.2
    rw [hit] at ih
    rw [hrep.2.2.1, hrep.2.2.2.1, hrep.1] at ih
    simp only [senderRun, senderStep, dataPackets]
    rw [hit]
    refine ⟨ih.1, ih.2.1, ?_⟩
    rw [ih.2.2, List.append_assoc]
    rfl
  | .command data len :: es, t, h => by
    have ih := senderRun_noHandshake b es (senderStep b (.command data len) t)
      (by simpa [noHandshake] using h)
    have ho := on_recv_offsets data len t.globals
    simp only [senderStep] at ih
    rw [ho.1, ho.2] at ih
    simpa [senderRun, senderStep, dataPackets] using ih

/-! ## Calibration offset -/

/-- C11: let an iteration run the calibration handshake and let `t₁` be the sender
state it leaves.  The captured offsets are the locals `raw_p`, `raw_r` after the
`read_mpu_data` call at the end of the countdown, and the packet of that iteration is
that reading minus the captured offsets.  Over every continuation in which no iteration
runs a handshake (commands may arrive), the offsets stay the captured ones and the
packets sent are, one per iteration and in order, the reading of the iteration minus
the captured offsets, with battery 95; the reading is what the I2C transfer of the
iteration delivered whenever that transfer succeeded. -/
theorem calibration_offset_subtracted (b : SenderBoard) (t t₁ : SenderLoop)
    (i : LoopInput) (es : List SenderEvent)
    (hcal : enters_calibration t i = true) (ht₁ : t₁ = loop_iteration b i t)
    (hnh : noHandshake b es t₁ = true) :
    (t₁.globals.offset_pitch
          = (read_mpu_data i.capture_transfer (raw_reading i).1 (raw_reading i).2).1 ∧
        t₁.globals.offset_roll
          = (read_mpu_data i.capture_transfer (raw_reading i).1 (raw_reading i).2).2) ∧
      t₁.sent.getLast?
        = some
          { pitch := b.float_sub t₁.globals.offset_pitch t₁.globals.offset_pitch
            roll := b.float_sub t₁.globals.offset_roll t₁.globals.offset_roll
            battery_level := 95 } ∧
      ((senderRun b es t₁).globals.offset_pitch = t₁.globals.offset_pitch ∧
        (senderRun b es t₁).globals.offset_roll = t₁.globals.offset_roll) ∧
      (senderRun b es t₁).sent
        = t₁.sent ++ dataPackets b t₁.globals.offset_pitch t₁.globals.offset_roll es ∧
      (∀ (j : LoopInput) (p r : CFloat), j.transfer = some (p, r) →
        raw_reading j = (p, r)) := by
  have hrun := senderRun_noHandshake b es t₁ hnh
  have hit := loop_iteration_of_enters b i t hcal
  have hh := handshake_spec i (raw_reading i) t
  have hrep := report_spec b (handshake i (raw_reading i) t).2
    (handshake i (raw_reading i) t).1
  rw [← hit, ← ht₁] at hrep
  have hp : t₁.globals.offset_pitch
      = (read_mpu_data i.capture_transfer (raw_reading i).1 (raw_reading i).2).1 := by
    rw [hrep.2.2.1, hh.2.2.2.1]
  have hr : t₁.globals.offset_roll
      = (read_mpu_data i.capture_transfer (raw_reading i).1 (raw_reading i).2).2 := by
    rw [hrep.2.2.2.1, hh.2.2.2.2.1]
  refine ⟨⟨hp, hr⟩, ?_, ⟨hrun.1, hrun.2.1⟩, hrun.2.2, ?_⟩
  · rw [hrep.1, List.getLast?_concat, hh.1, hh.2.2.2.1, hh.2.2.2.2.1, ← hp, ← hr]
  · intro j p r hj
    simp [raw_reading, read_mpu_data, hj]

/-- C11 at a concrete input: the button is held and the capture reads (10, 2); the next
two iterations read (25, 2) and (10, 5).  The log holds three keep-alive copies of the
default packet, the packet of the calibration iteration, then (15, 0, 95) and
(0, 3, 95). -/
theorem calibration_offset_subtracted_witness :
    (senderRun exactSenderBoard [.iteration (sampleOf 25 2), .iteration (sampleOf 10 5)]
        (loop_iteration exactSenderBoard buttonHeld (SenderLoop.init 1 0))).sent
      = [default_packet, default_packet, default_packet,
          { pitch := .finite 0, roll := .finite 0, battery_level := 95 },
          { pitch := .finite 15, roll := .finite 0, battery_level := 95 },
          { pitch := .finite 0, roll := .finite 3, battery_level := 95 }] :=
  ((calibration_offset_subtracted exactSenderBoard (SenderLoop.init 1 0)
    (loop_iteration exactSenderBoard buttonHeld (SenderLoop.init 1 0)) buttonHeld
    [.iteration (sampleOf 25 2), .iteration (sampleOf 10 5)] rfl rfl
    (by decide!)).2.2.2.1).trans (by decide!)

/-! ## Sensor read failure -/

/-- An iteration without handshake whose I2C transfer fails sends the content of the
fresh locals minus the offsets. -/
theorem loop_iteration_of_failed_read (b : SenderBoard) (i : LoopInput) (t : SenderLoop)
    (hcal : enters_calibration t i = false) (hfail : i.transfer = none) :
    (loop_iteration b i t).sent
      = t.sent ++ [{ pitch := b.float_sub i.uninit_p t.globals.offset_pitch
                     roll := b.float_sub i.uninit_r t.globals.offset_roll
                     battery_level := 95 }] := by
  rw [loop_iteration_of_not_enters b i t hcal, (report_spec b (raw_reading i) t).1]
  simp [raw_reading, read_mpu_data, hfail]

/-! ## Keep-alive during calibration -/

theorem previous_sample_of_concat (t : SenderLoop) (sent : List posture_packet_t)
    (packet : posture_packet_t) (h : t.sent = sent ++ [packet]) :
    previous_sample t = packet := by
  unfold previous_sample
  rw [h, List.getLast?_concat]
  rfl

/-- After every loop iteration the local `packet` is the last packet of the log. -/
theorem loop_iteration_packet (b : SenderBoard) (i : LoopInput) (t : SenderLoop) :
    (loop_iteration b i t).packet = previous_sample (loop_iteration b i t) := by
  cases h : enters_calibration t i with
  | false =>
    rw [loop_iteration_of_not_enters b i t h]
    have hrep := report_spec b (raw_reading i) t
    rw [previous_sample_of_concat _ _ _ hrep.1, hrep.2.1]
  | true =>
    rw [loop_iteration_of_enters b i t h]
    have hrep := report_spec b (handshake i (raw_reading i) t).2
      (handshake i (raw_reading i) t).1
    rw [previous_sample_of_concat _ _ _ hrep.1, hrep.2.1]

/-- In every state reached from the loop entry the local `packet` is the previous
sample: the last packet sent, or the default packet when none was sent. -/
theorem senderRun_packet (b : SenderBoard) :
    ∀ (es : List SenderEvent) (t : SenderLoop), t.packet = previous_sample t →
      (senderRun b es t).packet = previous_sample (senderRun b es t)
  | [], _, h => h
  | .iteration i :: es, t, _ =>
    senderRun_packet b es (loop_iteration b i t) (loop_iteration_packet b i t)
  | .command data len :: es, t, h =>
    senderRun_packet b es (senderStep b (.command data len) t) h

/-- C15: let `t` be a sender state reached from the loop entry in which an iteration
enters the calibration handshake.  The local `packet` holds the previous telemetry
sample: the last packet sent, or the default (0, 0, 95).  After `k` units of the
countdown, `k` at most 3, exactly `k` copies of that sample have been sent and both
offsets still have their prior values.  The whole iteration sends three copies and then
the data packet.  After the countdown the offsets become the locals `raw_p`, `raw_r` as
the `read_mpu_data` call at the end of the countdown leaves them, which is the fresh
reading whenever that transfer succeeds, and `trigger_calibration` is false. -/
theorem calibration_keep_alive (b : SenderBoard) (led_level vib_motor_level : Nat)
    (es : List SenderEvent) (t : SenderLoop) (i : LoopInput)
    (ht : t = senderRun b es (SenderLoop.init led_level vib_motor_level))
    (hcal : enters_calibration t i = true) :
    t.packet = previous_sample t ∧
      (∀ k, k ≤ 3 →
        (keep_alive_countdown k { t with vib_motor_level := 0 }).sent
            = t.sent ++ List.replicate k (previous_sample t) ∧
          (keep_alive_countdown k { t with vib_motor_level := 0 }).globals.offset_pitch
            = t.globals.offset_pitch ∧
          (keep_alive_countdown k { t with vib_motor_level := 0 }).globals.offset_roll
            = t.globals.offset_roll) ∧
      (loop_iteration b i t).sent
        = t.sent ++ List.replicate 3 (previous_sample t) ++ [(loop_iteration b i t).packet] ∧
      ((loop_iteration b i t).globals.offset_pitch
          = (read_mpu_data i.capture_transfer (raw_reading i).1 (raw_reading i).2).1 ∧
        (loop_iteration b i t).globals.offset_roll
          = (read_mpu_data i.capture_transfer (raw_reading i).1 (raw_reading i).2).2) ∧
      (∀ p r : CFloat, i.capture_transfer = some (p, r) →
        (loop_iteration b i t).globals.offset_pitch = p ∧
        (loop_iteration b i t).globals.offset_roll = r) ∧
      (loop_iteration b i t).globals.trigger_calibration = false := by
  have hpkt : t.packet = previous_sample t := by
    rw [ht]
    exact senderRun_packet b es _ rfl
  have hit := loop_iteration_of_enters b i t hcal
  have hh := handshake_spec i (raw_reading i) t
  have hrep := report_spec b (handshake i (raw_reading i) t).2
    (handshake i (raw_reading i) t).1
  rw [← hit] at hrep
  have hp : (loop_iteration b i t).globals.offset_pitch
      = (read_mpu_data i.capture_transfer (raw_reading i).1 (raw_reading i).2).1 := by
    rw [hrep.2.2.1, hh.2.2.2.1]
  have hr : (loop_iteration b i t).globals.offset_roll
      = (read_mpu_data i.capture_transfer (raw_reading i).1 (raw_reading i).2).2 := by
    rw [hrep.2.2.2.1, hh.2.2.2.2.1]
  refine ⟨hpkt, ?_, ?_, ⟨hp, hr⟩, ?_, ?_⟩
  · intro k _
    have hk := keep_alive_countdown_spec k { t with vib_motor_level := 0 }
    refine ⟨?_, hk.2.2.1, hk.2.2.2.1⟩
    rw [hk.1, ← hpkt]
  · rw [hrep.1, hh.2.1, ← hpkt, hrep.2.1]
  · intro p r hc
    rw [hp, hr, hc]
    exact ⟨rfl, rfl⟩
  · rw [hrep.2.2.2.2.1, hh.2.2.2.2.2]

/-- C15 at a concrete input: the first iteration reads (10, 2), then the button is held.
The handshake iteration sends three copies of (10, 2, 95) and then its data packet, and
captures the offsets (10, 2). -/
theorem calibration_keep_alive_witness :
    (loop_iteration exactSenderBoard buttonHeld
        (loop_iteration exactSenderBoard (sampleOf 10 2) (SenderLoop.init 1 0))).sent
        = (loop_iteration exactSenderBoard (sampleOf 10 2) (SenderLoop.init 1 0)).sent
          ++ List.replicate 3
            (previous_sample
              (loop_iteration exactSenderBoard (sampleOf 10 2) (SenderLoop.init 1 0)))
          ++ [(loop_iteration exactSenderBoard buttonHeld
            (loop_iteration exactSenderBoard (sampleOf 10 2) (SenderLoop.init 1 0))).packet] ∧
      ((loop_iteration exactSenderBoard buttonHeld
          (loop_iteration exactSenderBoard (sampleOf 10 2)
            (SenderLoop.init 1 0))).globals.offset_pitch = .finite 10 ∧
        (loop_iteration exactSenderBoard buttonHeld
          (loop_iteration exactSenderBoard (sampleOf 10 2)
            (SenderLoop.init 1 0))).globals.offset_roll = .finite 2) :=
  ⟨(calibration_keep_alive exactSenderBoard 1 0 [.iteration (sampleOf 10 2)]
      (loop_iteration exactSenderBoard (sampleOf 10 2) (SenderLoop.init 1 0)) buttonHeld
      rfl (by decide!)).2.2.1,
    (calibration_keep_alive exactSenderBoard 1 0 [.iteration (sampleOf 10 2)]
      (loop_iteration exactSenderBoard (sampleOf 10 2) (SenderLoop.init 1 0)) buttonHeld
      rfl (by decide!)).2.2.2.2.1 (.finite 10) (.finite 2) rfl⟩

/-! ## Sensor read failure during normal sampling -/

end CorePosture
